import Mathlib

/-!
Verification model of the Squiss SQS client engine.

The definitions below are a shallow embedding of the repository's sources:

* src/attributeUtils.ts (attribute marshalling)
* src/index.ts (the Squiss engine: send pipeline, send/delete batching,
  poll loop, constructor option clamping)

Modules that the repository imports but whose sources are not available
(gzipUtils, s3Utils, messageSizeUtils, Message) are modelled from the
specification; every such definition carries a doc comment starting with
"Modelled from the spec:".

JavaScript numbers are modelled as `Int` (the values involved are integral
byte counts, batch sizes and counters); JS `undefined` and falsiness are
modelled explicitly where the code depends on them.
-/

namespace Squiss

/-! ### JS attribute values (attributeUtils.ts, `IMessageAttribute`)

`IMessageAttribute = number | string | SQS.Binary | undefined`.  Binary data
is a byte list.  NaN — which can arise from the JS `Number()` conversion on
non-numeric text — lies outside the integer carrier and is represented by
`.jsUndefined` (like NaN it is falsy and is neither a string nor a binary). -/

inductive AttrVal where
  | num (n : Int)
  | str (s : String)
  | bin (b : List Nat)
  | jsUndefined
  deriving DecidableEq, Repr

/-- JS truthiness of an `IMessageAttribute` value: `0`, the empty string and
`undefined` are falsy; a Buffer (object) is always truthy. -/
def AttrVal.truthy : AttrVal → Bool
  | .num n => n != 0
  | .str s => s != ""
  | .bin _ => true
  | .jsUndefined => false

/-! ### Decimal rendering and parsing (JS `String(n)` / `Number(s)`) -/

/-- The character for a decimal digit `d < 10` (code point `48 + d`). -/
def digitChar (d : Nat) : Char := Char.ofNat (48 + d)

/-- The decimal digits of `n`, least significant first. -/
def natDigitsRev (n : Nat) : List Nat :=
  if _h : n < 10 then [n] else (n % 10) :: natDigitsRev (n / 10)
decreasing_by exact Nat.div_lt_self (by omega) (by omega)

/-- Decimal rendering of a natural number (the JS `String()` conversion on a
nonnegative integer). -/
def jsStringOfNat (n : Nat) : String := ⟨(natDigitsRev n).reverse.map digitChar⟩

/-- Model of the JS `String()` conversion on an integer. -/
def jsString (n : Int) : String :=
  if n < 0 then ⟨'-' :: (jsStringOfNat n.natAbs).data⟩ else jsStringOfNat n.natAbs

/-- Numeric value of a decimal digit character. -/
def charToDigit (c : Char) : Nat := c.toNat - 48

/-- Parse a nonempty all-digit character list as a decimal natural number. -/
def parseNatDigits (cs : List Char) : Option Nat :=
  if cs ≠ [] ∧ cs.all Char.isDigit then
    some (cs.foldl (fun a c => a * 10 + charToDigit c) 0)
  else none

/-- Parse a character list as a (possibly negated) decimal integer. -/
def parseJsIntChars : List Char → Option Int
  | [] => none
  | c :: rest =>
    if c = '-' then (parseNatDigits rest).map (fun n => -(n : Int))
    else (parseNatDigits (c :: rest)).map (fun n => (n : Int))

/-- Parse a string as a (possibly negated) decimal integer. -/
def parseJsInt (s : String) : Option Int :=
  parseJsIntChars s.data

/-- Model of the JS `Number()` conversion on an optional string, restricted to
the decimal-integer carrier of this embedding: `Number(undefined)` is NaN
(modelled `.jsUndefined`), `Number('')` is `0`, a decimal integer string parses to
its value, and any other string gives NaN (modelled `.jsUndefined`). -/
def jsNumber : Option String → AttrVal
  | none => .jsUndefined
  | some s =>
    if s = "" then .num 0
    else
      match parseJsInt s with
      | some n => .num n
      | none => .jsUndefined

/-! ### Wire attribute values (SQS.MessageAttributeValue) -/

def STRING_TYPE : String := "String"
def NUMBER_TYPE : String := "Number"
def BINARY_TYPE : String := "Binary"

structure MessageAttributeValue where
  DataType : String
  StringValue : Option String := none
  BinaryValue : Option (List Nat) := none
  deriving DecidableEq, Repr

/-- attributeUtils.ts `createAttributeValue`: falsy values are replaced by the
empty string; numbers are rendered as decimal text tagged `Number`; strings
are tagged `String`; everything else (a Buffer) is tagged `Binary`. -/
def createAttributeValue (unparsedAttribute : AttrVal) : MessageAttributeValue :=
  let unparsedAttribute := if !unparsedAttribute.truthy then .str "" else unparsedAttribute
  match unparsedAttribute with
  | .num n => { DataType := NUMBER_TYPE, StringValue := some (jsString n) }
  | .str s => { DataType := STRING_TYPE, StringValue := some s }
  | .bin b => { DataType := BINARY_TYPE, BinaryValue := some b }
  | .jsUndefined => { DataType := BINARY_TYPE }  -- unreachable: falsy values were replaced above

/-- attributeUtils.ts `createMessageAttributes`: marshal every entry of the
logical attribute map (JS objects preserve insertion order, so the map is an
association list). -/
def createMessageAttributes (messageAttributes : List (String × AttrVal)) :
    List (String × MessageAttributeValue) :=
  messageAttributes.map (fun p => (p.1, createAttributeValue p.2))

/-- The JS expression `binaryValue` of type `Binary | undefined` used as an
`IMessageAttribute` result. -/
def binOrJsUndefined : Option (List Nat) → AttrVal
  | some b => .bin b
  | none => .jsUndefined

/-- The JS expression `stringValue || binaryValue`: the string if it is truthy
(present and nonempty), otherwise the binary value (or `undefined`). -/
def jsOrStringBinary (stringValue : Option String) (binaryValue : Option (List Nat)) : AttrVal :=
  match stringValue with
  | some s => if s != "" then .str s else binOrJsUndefined binaryValue
  | none => binOrJsUndefined binaryValue

/-- attributeUtils.ts `parseAttributeValue`: switch on the wire `DataType`. -/
def parseAttributeValue (unparsedAttribute : MessageAttributeValue) : AttrVal :=
  if unparsedAttribute.DataType = NUMBER_TYPE then jsNumber unparsedAttribute.StringValue
  else if unparsedAttribute.DataType = BINARY_TYPE then binOrJsUndefined unparsedAttribute.BinaryValue
  else jsOrStringBinary unparsedAttribute.StringValue unparsedAttribute.BinaryValue

/-- attributeUtils.ts `parseMessageAttributes`: an absent wire map parses as
the empty map; otherwise parse every entry. -/
def parseMessageAttributes (messageAttributes : Option (List (String × MessageAttributeValue))) :
    List (String × AttrVal) :=
  (messageAttributes.getD []).map (fun p => (p.1, parseAttributeValue p.2))

/-! ### JS object operations on association lists

JS objects are string-keyed maps preserving insertion order; they are
modelled as association lists. -/

/-- JS property read `obj[k]`: the first binding for `k`, or `undefined`. -/
def attrGet (attrs : List (String × AttrVal)) (name : String) : AttrVal :=
  (((attrs.find? (fun p => p.1 == name)).map (fun p => p.2)).getD .jsUndefined)

/-- JS property write `obj[k] = v`: overwrite an existing binding in place,
otherwise append a new binding. -/
def jsSet {α : Type} (m : List (String × α)) (k : String) (v : α) : List (String × α) :=
  if m.any (fun p => p.1 == k) then m.map (fun p => if p.1 == k then (k, v) else p)
  else m ++ [(k, v)]

/-- JS property removal `delete obj[k]`. -/
def jsDelete {α : Type} (m : List (String × α)) (k : String) : List (String × α) :=
  m.filter (fun p => p.1 != k)

/-- JS string coercion of an attribute value (the values reaching this are
strings by the TypeScript `IMessageAttributes` typing). -/
def jsToString : AttrVal → String
  | .str s => s
  | .num n => jsString n
  | .bin _ => ""       -- outside the typed API surface
  | .jsUndefined => "undefined"

/-! ### Reserved marker attributes and the wire body

gzipUtils.ts and s3Utils.ts are not among the available sources; their
exports are modelled from the spec. -/

/-- Modelled from the spec: the reserved compression marker attribute name
exported by the missing gzipUtils module.  The spec fixes only that it is a
reserved internal name, distinct from the offload marker. -/
def GZIP_MARKER : String := "__SQS_GZIP__"

/-- Modelled from the spec: the reserved blob-offload marker attribute name
exported by the missing s3Utils module. -/
def S3_MARKER : String := "__SQS_S3__"

/-- Modelled from the spec: the blob-store pointer payload "(store location
plus original size)" produced by the missing s3Utils upload. -/
structure UploadData where
  bucket : String
  key : String
  uploadSize : Nat
  deriving DecidableEq, Repr

/-- The wire message body is a string; the string formats of the compressed
body and of the serialized blob pointer are defined by the missing gzipUtils
and s3Utils modules, so the body is modelled as a tagged value whose tags
stand for those (injective) string encodings. -/
inductive MessageBody where
  | plain (s : String)
  | gzipped (s : String)
  | s3Pointer (u : UploadData)
  deriving DecidableEq, Repr

/-- Modelled from the spec: gzip compression of a body string (missing
gzipUtils module); an injective encoding inverted exactly by
`decompressMessage` (spec §8: compress/decompress round-trips). -/
def compressMessage (s : String) : MessageBody := .gzipped s

/-- Modelled from the spec: gzip decompression (missing gzipUtils module);
fails on anything that is not a compressed body. -/
def decompressMessage : MessageBody → Option String
  | .gzipped s => some s
  | _ => none

/-- UTF-8 byte length of a string (JS `Buffer.byteLength`). -/
def stringByteLength (s : String) : Nat := s.utf8ByteSize

/-- Modelled from the spec: the byte length of the compressed body.  The spec
fixes no output-length formula for gzip, so the model uses the input's
length. -/
def gzippedByteLength (s : String) : Nat := stringByteLength s

/-- Modelled from the spec: the byte length of the serialized blob-pointer
payload (store location plus original size). -/
def pointerByteLength (u : UploadData) : Nat :=
  stringByteLength u.bucket + stringByteLength u.key + (jsStringOfNat u.uploadSize).length + 32

/-- Byte length of a wire body. -/
def MessageBody.byteLength : MessageBody → Nat
  | .plain s => stringByteLength s
  | .gzipped s => gzippedByteLength s
  | .s3Pointer u => pointerByteLength u

/-! ### The outbound request and its size (index.ts `ISendMessageRequest`,
missing messageSizeUtils module) -/

structure ISendMessageRequest where
  MessageBody : MessageBody
  DelaySeconds : Option Int := none
  MessageAttributes : Option (List (String × MessageAttributeValue)) := none
  MessageDeduplicationId : Option String := none
  MessageGroupId : Option String := none
  deriving DecidableEq, Repr

/-- Modelled from the spec: the fixed per-attribute overhead in the shared
size function (spec §4.2: "body byte length plus a fixed per-attribute
overhead plus each attribute's encoded length"); the constant's value is not
fixed by the spec. -/
def ATTRIBUTE_SIZE_OVERHEAD : Nat := 16

/-- Encoded length of one wire attribute value. -/
def attributeValueLength (v : MessageAttributeValue) : Nat :=
  stringByteLength v.DataType + ((v.StringValue.map stringByteLength).getD 0)
    + ((v.BinaryValue.map List.length).getD 0)

/-- Modelled from the spec: `getMessageSize` of the missing messageSizeUtils
module — the sum of the body byte length, and, per attribute, a fixed
overhead plus the name's and value's encoded lengths.  This single size
function is shared by the compression check, the offload check and send
batching. -/
def getMessageSize (m : ISendMessageRequest) : Int :=
  ((m.MessageBody.byteLength
    + ((m.MessageAttributes.getD []).map
        (fun p => ATTRIBUTE_SIZE_OVERHEAD + stringByteLength p.1 + attributeValueLength p.2)).sum : Nat) : Int)

/-! ### Engine configuration, state and collaborators (index.ts) -/

/-- The send-pipeline options of `ISquissOptions` after defaulting.  JS
`undefined` for the numeric thresholds coincides with `0` under the
truthiness checks the code performs, so both are modelled as `0`.
(`s3Pre` models the source's s3 key-prefix option.) -/
structure SquissOpts where
  gzip : Bool := false
  minGzipSize : Int := 0
  s3Fallback : Bool := false
  s3Bucket : String := ""
  s3Pre : String := ""
  minS3Size : Int := 0
  deriving DecidableEq, Repr

/-- Modelled from the spec: the blob-store contents, a map from key to the
uploaded body. -/
abbrev S3State : Type := List (String × MessageBody)

/-- The mutable per-engine state touched by the send pipeline:
`_queueUrl` (empty = unresolved), `_queueMaximumMessageSize` (0 = not yet
fetched) and the blob store. -/
structure SquissState where
  queueUrl : String := ""
  queueMaximumMessageSize : Int := 0
  s3 : S3State := []
  deriving DecidableEq, Repr

/-- The remote queue service as seen by the engine. -/
structure QueueEnv where
  queueUrl : String := "http://queue"
  maximumMessageSize : Int := 262144
  deriving DecidableEq, Repr

/-- Network calls issued by the engine (for stating "no network call"). -/
inductive NetworkCall where
  | sqsGetQueueUrl
  | sqsGetQueueAttributes (name : String)
  | sqsSendMessage
  | s3Put (bucket key : String)
  deriving DecidableEq, Repr

/-- index.ts `getQueueUrl`: return the cached URL, else fetch and cache it. -/
def getQueueUrl (env : QueueEnv) (st : SquissState) : String × SquissState × List NetworkCall :=
  if st.queueUrl != "" then (st.queueUrl, st, [])
  else (env.queueUrl, { st with queueUrl := env.queueUrl }, [.sqsGetQueueUrl])

/-- index.ts `getQueueMaximumMessageSize`: return the cached size, else query
the queue's `MaximumMessageSize` attribute and cache it. -/
def getQueueMaximumMessageSize (env : QueueEnv) (st : SquissState) :
    Int × SquissState × List NetworkCall :=
  if st.queueMaximumMessageSize != 0 then (st.queueMaximumMessageSize, st, [])
  else
    let r := getQueueUrl env st
    (env.maximumMessageSize,
     { r.2.1 with queueMaximumMessageSize := env.maximumMessageSize },
     r.2.2 ++ [.sqsGetQueueAttributes "MaximumMessageSize"])

/-- index.ts `isLargeMessage`: with a truthy `minSize`, strictly larger than
`minSize`; otherwise at least the queue's (lazily fetched) maximum message
size. -/
def isLargeMessage (env : QueueEnv) (st : SquissState) (message : ISendMessageRequest)
    (minSize : Int) : Bool × SquissState × List NetworkCall :=
  let messageSize := getMessageSize message
  if minSize != 0 then (decide (messageSize > minSize), st, [])
  else
    let r := getQueueMaximumMessageSize env st
    (decide (messageSize ≥ r.1), r.2.1, r.2.2)

/-- The value `getQueueMaximumMessageSize` produces: the cached size when one
is present, else the remote queue's maximum message size. -/
def effectiveQueueMaximumMessageSize (env : QueueEnv) (st : SquissState) : Int :=
  if st.queueMaximumMessageSize != 0 then st.queueMaximumMessageSize
  else env.maximumMessageSize

/-- Errors raised by the send pipeline. -/
inductive SquissError where
  | reservedAttribute (marker : String)
  deriving DecidableEq, Repr

/-- Modelled from the spec: blob-store put of the missing s3Utils module —
store the body under a fresh key and report the location and uploaded
size. -/
def uploadBlob (store : S3State) (bucket : String) (blob : MessageBody) (keyPre : String) :
    UploadData × S3State :=
  let key := keyPre ++ jsStringOfNat (List.length store)
  ({ bucket := bucket, key := key, uploadSize := blob.byteLength }, (key, blob) :: store)

/-- Blob-store read by key (first binding wins). -/
def s3Lookup (store : S3State) (key : String) : Option MessageBody :=
  (List.find? (fun p => p.1 == key) store).map (fun p => p.2)

/-! ### The encode pipeline (index.ts `perpareMessageRequest`, lines 701-768)

The sequential source function is split into its three stages; the
composition `perpareMessageRequest` mirrors the source. -/

/-- Stage 1 (source lines 703-729): reject truthy reserved markers, serialize
the body, set the delay, extract the FIFO keys, marshal the attributes.
Returns the request together with `messageStr`.  (Structured message inputs
are serialized by JSON.stringify in the source; the model takes the body as
the already-serialized string.) -/
def perpareBase (message : String) (delay : Option Int)
    (attributes : Option (List (String × AttrVal))) :
    Except SquissError (ISendMessageRequest × String) :=
  if (match attributes with | some a => (attrGet a GZIP_MARKER).truthy | none => false) then
    .error (.reservedAttribute GZIP_MARKER)
  else if (match attributes with | some a => (attrGet a S3_MARKER).truthy | none => false) then
    .error (.reservedAttribute S3_MARKER)
  else
    let messageStr := message
    let params : ISendMessageRequest := { MessageBody := .plain messageStr }
    let params :=
      match delay with
      | some d => if d != 0 then { params with DelaySeconds := some d } else params
      | none => params
    match attributes with
    | none => .ok (params, messageStr)
    | some attrs =>
      let st1 :=
        let v := attrGet attrs "FIFO_MessageGroupId"
        if v.truthy then
          ({ params with MessageGroupId := some (jsToString v) },
           jsDelete attrs "FIFO_MessageGroupId")
        else (params, attrs)
      let st2 :=
        let v := attrGet st1.2 "FIFO_MessageDeduplicationId"
        if v.truthy then
          ({ st1.1 with MessageDeduplicationId := some (jsToString v) },
           jsDelete st1.2 "FIFO_MessageDeduplicationId")
        else st1
      .ok ({ st2.1 with MessageAttributes := some (createMessageAttributes st2.2) }, messageStr)

/-- Stage 2 (source lines 730-744): when gzip is enabled and the size
threshold does not veto it, compress the body and set the compression marker
attribute.  Returns the request (marker applied, body not yet replaced) and
the final body. -/
def applyGzip (opts : SquissOpts) (params : ISendMessageRequest) (messageStr : String) :
    ISendMessageRequest × MessageBody :=
  if opts.gzip then
    if opts.minGzipSize != 0 ∧ getMessageSize params < opts.minGzipSize then
      (params, .plain messageStr)
    else
      ({ params with
          MessageAttributes := some (jsSet (params.MessageAttributes.getD []) GZIP_MARKER
            { DataType := NUMBER_TYPE, StringValue := some "1" }) },
       compressMessage messageStr)
  else (params, .plain messageStr)

/-- Stage 3 (source lines 745-767): install the final body; when the s3
fallback is enabled and the request is large, upload the body and replace it
by the pointer payload, recording the uploaded size in the offload marker
attribute. -/
def applyS3 (opts : SquissOpts) (env : QueueEnv) (st : SquissState)
    (params : ISendMessageRequest) (finalMessage : MessageBody) :
    ISendMessageRequest × SquissState × List NetworkCall :=
  let params := { params with MessageBody := finalMessage }
  if !opts.s3Fallback then (params, st, [])
  else
    let r := isLargeMessage env st params opts.minS3Size
    if !r.1 then (params, r.2.1, r.2.2)
    else
      let up := uploadBlob r.2.1.s3 opts.s3Bucket finalMessage opts.s3Pre
      ({ params with
          MessageBody := .s3Pointer up.1,
          MessageAttributes := some (jsSet (params.MessageAttributes.getD []) S3_MARKER
            { DataType := NUMBER_TYPE, StringValue := some (jsStringOfNat up.1.uploadSize) }) },
       { r.2.1 with s3 := up.2 }, r.2.2 ++ [.s3Put opts.s3Bucket up.1.key])

/-- index.ts `perpareMessageRequest` (lines 701-768): the three stages in
order. -/
def perpareMessageRequest (opts : SquissOpts) (env : QueueEnv) (st : SquissState)
    (message : String) (delay : Option Int)
    (attributes : Option (List (String × AttrVal))) :
    Except SquissError (ISendMessageRequest × SquissState × List NetworkCall) :=
  match perpareBase message delay attributes with
  | .error e => .error e
  | .ok pm =>
    let g := applyGzip opts pm.1 pm.2
    .ok (applyS3 opts env st g.1 g.2)

/-- index.ts `sendMessage` (lines 401-416): resolve the queue URL and prepare
the request (`Promise.all`), then issue the send call; a preparation error
rejects the send with no send call issued. -/
def sendMessage (opts : SquissOpts) (env : QueueEnv) (st : SquissState)
    (message : String) (delay : Option Int)
    (attributes : Option (List (String × AttrVal))) :
    Except SquissError ISendMessageRequest × SquissState × List NetworkCall :=
  let q := getQueueUrl env st
  match perpareMessageRequest opts env q.2.1 message delay attributes with
  | .error e => (.error e, q.2.1, q.2.2)
  | .ok r => (.ok r.1, r.2.1, q.2.2 ++ r.2.2 ++ [.sqsSendMessage])

/-- The `DelaySeconds` field the pipeline sets for a given delay argument
(set only for a truthy delay). -/
def delayField : Option Int → Option Int
  | some d => if d != 0 then some d else none
  | none => none

/-- The wire value of the compression marker attribute
(`{ StringValue: '1', DataType: 'Number' }`, source line 737). -/
def gzipMarkerValue : MessageAttributeValue :=
  { DataType := NUMBER_TYPE, StringValue := some "1" }

/-- The wire value of the offload marker attribute (the uploaded size as
decimal text tagged `Number`, source line 760). -/
def s3MarkerValue (uploadSize : Nat) : MessageAttributeValue :=
  { DataType := NUMBER_TYPE, StringValue := some (jsStringOfNat uploadSize) }

/-- The request `perpareBase` produces for a string body, a delay argument
and an attribute map that triggers neither the reserved-marker rejection nor
the FIFO-key extraction. -/
def basePreparedRequest (body : String) (delay : Option Int)
    (attrs : List (String × AttrVal)) : ISendMessageRequest :=
  { MessageBody := .plain body, DelaySeconds := delayField delay,
    MessageAttributes := some (createMessageAttributes attrs) }

/-- The prepared request after the compression stage appended its marker
attribute, with the given wire body. -/
def gzipMarkedRequest (b : MessageBody) (delay : Option Int)
    (attrs : List (String × AttrVal)) : ISendMessageRequest :=
  { MessageBody := b, DelaySeconds := delayField delay,
    MessageAttributes := some (createMessageAttributes attrs
      ++ [(GZIP_MARKER, gzipMarkerValue)]) }

/-! ### The decode pipeline (Message module, not among the sources) -/

/-- A raw received record: wire body plus wire attribute map. -/
structure RawReceivedMessage where
  Body : MessageBody
  MessageAttributes : Option (List (String × MessageAttributeValue))
  deriving DecidableEq, Repr

/-- Modelled from the spec: the receive-side decode of the missing Message
module, with the default configuration (plain body format, no SNS
unwrapping).  Spec §4.2 decode order: detect the offload marker and fetch
the blob from the pointer location; detect the compression marker and
decompress; parse the wire attributes back into logical values.  Marker
attributes are internal and "invisible ... to callers" (glossary), so they
are removed from the parsed map. -/
def decodeMessage (store : S3State) (raw : RawReceivedMessage) :
    Option (String × List (String × AttrVal)) :=
  let wireAttrs := raw.MessageAttributes.getD []
  let step1 : Option MessageBody :=
    if wireAttrs.any (fun p => p.1 == S3_MARKER) then
      match raw.Body with
      | .s3Pointer u => s3Lookup store u.key
      | _ => none
    else some raw.Body
  match step1 with
  | none => none
  | some b1 =>
    let step2 : Option String :=
      if wireAttrs.any (fun p => p.1 == GZIP_MARKER) then decompressMessage b1
      else match b1 with
        | .plain s => some s
        | _ => none
    match step2 with
    | none => none
    | some body =>
      some (body, (parseMessageAttributes raw.MessageAttributes).filter
        (fun p => p.1 != GZIP_MARKER && p.1 != S3_MARKER))

/-! ### Send batching (index.ts `sendMessages`, lines 435-456) -/

/-- index.ts `AWS_MAX_SEND_BATCH`. -/
def AWS_MAX_SEND_BATCH : Nat := 10

/-- The accumulator of the `sendMessages` grouping loop. -/
structure SendBatchAcc where
  batches : List (List ISendMessageRequest)
  currentBatchSize : Int
  currentBatchLength : Nat
  deriving DecidableEq, Repr

/-- `batches[batches.length - 1].push(message)`. -/
def pushLast {α : Type} : List (List α) → α → List (List α)
  | [], m => [[m]]
  | [b], m => [b ++ [m]]
  | b :: rest, m => b :: pushLast rest m

/-- One iteration of the `sendMessages` grouping loop: start a new batch when
the running count modulo `AWS_MAX_SEND_BATCH` is zero or the running size
plus the next request's size meets the size cap; then append the request to
the current batch and update the running counters. -/
def sendBatchStep (queueMaximumMessageSize : Int) (acc : SendBatchAcc)
    (message : ISendMessageRequest) : SendBatchAcc :=
  let messageSize := getMessageSize message
  let acc :=
    if acc.currentBatchLength % AWS_MAX_SEND_BATCH = 0
        ∨ acc.currentBatchSize + messageSize ≥ queueMaximumMessageSize then
      { batches := acc.batches ++ [[]], currentBatchSize := 0, currentBatchLength := 0 }
    else acc
  { batches := pushLast acc.batches message,
    currentBatchSize := acc.currentBatchSize + messageSize,
    currentBatchLength := acc.currentBatchLength + 1 }

/-- The grouping performed by index.ts `sendMessages` over the prepared
requests, given the queried queue maximum message size. -/
def sendMessagesBatches (queueMaximumMessageSize : Int)
    (messageRequests : List ISendMessageRequest) : List (List ISendMessageRequest) :=
  (messageRequests.foldl (sendBatchStep queueMaximumMessageSize)
    { batches := [], currentBatchSize := 0, currentBatchLength := 0 }).batches

/-! ### Delete batching (index.ts `deleteMessage`, lines 258-296) -/

/-- One pending delete (`IDeleteQueueItem` without the JS callbacks). -/
structure DeleteQueueItem where
  id : String
  receiptHandle : String
  deriving DecidableEq, Repr

/-- The delete batcher's state: the pending map (insertion-ordered) and
whether the debounce timer is armed. -/
structure DelBatcherState where
  delQueue : List (String × DeleteQueueItem)
  delTimer : Bool
  deriving DecidableEq, Repr

/-- index.ts `deleteMessage` (batching part): enqueue the item under its
message id; if the queue has reached the batch size, cancel any debounce
timer and flush the oldest `deleteBatchSize` items; otherwise arm the
debounce timer if it is not already running.  Returns the new state and the
flushed batch, if any. -/
def deleteMessage (deleteBatchSize : Nat) (s : DelBatcherState) (item : DeleteQueueItem) :
    DelBatcherState × Option (List DeleteQueueItem) :=
  let delQueue := jsSet s.delQueue item.id item
  if delQueue.length ≥ deleteBatchSize then
    ({ delQueue := delQueue.drop deleteBatchSize, delTimer := false },
     some ((delQueue.take deleteBatchSize).map (fun p => p.2)))
  else if !s.delTimer then
    ({ delQueue := delQueue, delTimer := true }, none)
  else
    ({ delQueue := delQueue, delTimer := s.delTimer }, none)

/-- The debounce-timer callback (source lines 283-293): clear the timer and
flush everything currently queued. -/
def delTimerFire (s : DelBatcherState) : DelBatcherState × List DeleteQueueItem :=
  ({ delQueue := [], delTimer := false }, s.delQueue.map (fun p => p.2))

/-! ### The poll engine (index.ts `_getBatch` / `handledMessage`) -/

/-- The receive-loop options after construction. -/
structure PollOpts where
  maxInFlight : Int := 100
  receiveBatchSize : Int := 10
  minReceiveBatchSize : Int := 1
  pollRetryMs : Int := 2000
  deriving DecidableEq, Repr

/-- The receive-loop state. -/
structure PollState where
  running : Bool := true
  paused : Bool := false
  inFlight : Int := 0
  activeReq : Bool := false
  deriving DecidableEq, Repr

/-- index.ts `_slotsAvailable`: unlimited when `maxInFlight` is falsy,
otherwise below the cap. -/
def slotsAvailable (o : PollOpts) (s : PollState) : Bool :=
  o.maxInFlight == 0 || s.inFlight < o.maxInFlight

/-- index.ts `_getBatch` (call-issuing part, lines 562-583): with a call
already outstanding or the engine stopped, do nothing; compute the requested
batch size (`receiveBatchSize` when `maxInFlight` is falsy, else the minimum
with the remaining capacity); below the minimum batch size, pause; otherwise
issue one receive call for that many messages. -/
def getBatch (o : PollOpts) (s : PollState) : PollState × Option Int :=
  if s.activeReq || !s.running then (s, none)
  else
    let maxMessagesToGet :=
      if o.maxInFlight == 0 then o.receiveBatchSize
      else min (o.maxInFlight - s.inFlight) o.receiveBatchSize
    if maxMessagesToGet < o.minReceiveBatchSize then ({ s with paused := true }, none)
    else ({ s with activeReq := true }, some maxMessagesToGet)

/-- Engine notifications relevant to the modelled claims. -/
inductive EngineEvent where
  | message
  | handled
  | drained
  | aborted
  | error
  deriving DecidableEq, Repr

/-- index.ts `handledMessage` (lines 366-377): decrement the in-flight
counter; if paused with capacity now free, unpause and restart the poller
(which runs `_getBatch`); emit `handled` and, when the counter is zero,
`drained`.  Returns the new state, the emitted events, and the receive call
the restarted poller issued, if any. -/
def handledMessage (o : PollOpts) (s : PollState) : PollState × List EngineEvent × Option Int :=
  let s1 := { s with inFlight := s.inFlight - 1 }
  let r :=
    if s1.paused && slotsAvailable o s1 then getBatch o { s1 with paused := false }
    else (s1, none)
  (r.1, [.handled] ++ (if s1.inFlight == 0 then [.drained] else []), r.2)

/-- index.ts `_getBatch` failure handler (lines 606-614): an abort emits
`aborted` and schedules nothing; any other failure emits `error` and
schedules exactly one retry after `pollRetryMs`. -/
def handleReceiveFailure (o : PollOpts) (errCode : Option String) :
    List EngineEvent × Option Int :=
  if (match errCode with | some c => c != "" | none => false)
      && errCode == some "RequestAbortedError" then
    ([.aborted], none)
  else ([.error], some o.pollRetryMs)

/-! ### Receive/handle traces (for the in-flight invariant) -/

/-- One observable operation on the engine: a receive call returning `n`
records (index.ts `_emitMessages` increments the in-flight counter once per
record and emits one `message` notification each), or one `handledMessage`
call. -/
inductive EngineOp where
  | receive (n : Nat)
  | handle
  deriving DecidableEq, Repr

/-- The state transition of one operation. -/
def engineStep (o : PollOpts) (s : PollState) : EngineOp → PollState
  | .receive n => { s with inFlight := s.inFlight + n }
  | .handle => (handledMessage o s).1

/-- The events one operation emits. -/
def engineStepEvents (o : PollOpts) (s : PollState) : EngineOp → List EngineEvent
  | .receive n => List.replicate n .message
  | .handle => (handledMessage o s).2.1

/-- Run a sequence of operations. -/
def runEngine (o : PollOpts) (s : PollState) (ops : List EngineOp) : PollState :=
  ops.foldl (engineStep o) s

/-- A trace is valid when every `handle` is applied while a received message
is still unhandled (in-flight positive) — `handledMessage` is called once
per received message. -/
def validFrom (o : PollOpts) (s : PollState) : List EngineOp → Bool
  | [] => true
  | op :: rest =>
    (op != .handle || decide (0 < s.inFlight)) && validFrom o (engineStep o s op) rest

/-- Total number of records received by a trace. -/
def receivedTotal : List EngineOp → Nat
  | [] => 0
  | .receive n :: rest => n + receivedTotal rest
  | .handle :: rest => receivedTotal rest

/-- Total number of `handledMessage` calls in a trace. -/
def handledTotal : List EngineOp → Nat
  | [] => 0
  | .receive _ :: rest => handledTotal rest
  | .handle :: rest => 1 + handledTotal rest

/-! ### Constructor option clamping (index.ts constructor, lines 191-194) -/

/-- The numeric options after `Object.assign` with the defaults (the caller
may have supplied anything). -/
structure RawNumericOpts where
  deleteBatchSize : Int := 10
  receiveBatchSize : Int := 10
  minReceiveBatchSize : Int := 1
  maxInFlight : Int := 100
  deriving DecidableEq, Repr

/-- index.ts constructor lines 191-194:
`deleteBatchSize = Math.min(deleteBatchSize, 10)`;
`receiveBatchSize = Math.min(receiveBatchSize, maxInFlight > 0 ? maxInFlight : 10, 10)`;
`minReceiveBatchSize = Math.min(minReceiveBatchSize, receiveBatchSize)`. -/
def clampOpts (o : RawNumericOpts) : RawNumericOpts :=
  let deleteBatchSize := min o.deleteBatchSize 10
  let receiveBatchSize :=
    min o.receiveBatchSize (min (if o.maxInFlight > 0 then o.maxInFlight else 10) 10)
  let minReceiveBatchSize := min o.minReceiveBatchSize receiveBatchSize
  { o with
      deleteBatchSize := deleteBatchSize,
      receiveBatchSize := receiveBatchSize,
      minReceiveBatchSize := minReceiveBatchSize }

/-- The value of a most-significant-first digit list. -/
def valOfDigits (ds : List Nat) : Nat :=
  ds.foldl (fun a d => a * 10 + d) 0

/-! ## Lemmas: decimal rendering round trip -/

theorem valOfDigits_append (l : List Nat) (d : Nat) :
    valOfDigits (l ++ [d]) = valOfDigits l * 10 + d := by
  simp [valOfDigits, List.foldl_append]

theorem natDigitsRev_ne_nil (n : Nat) : natDigitsRev n ≠ [] := by
  rw [natDigitsRev]
  split <;> simp

theorem natDigitsRev_lt (n : Nat) : ∀ d ∈ natDigitsRev n, d < 10 := by
  induction n using Nat.strong_induction_on with
  | _ n ih =>
    rw [natDigitsRev]
    split
    · intro d hd
      simp only [List.mem_singleton] at hd
      omega
    · intro d hd
      simp only [List.mem_cons] at hd
      rcases hd with h | h
      · omega
      · exact ih (n / 10) (Nat.div_lt_self (by omega) (by omega)) d h

theorem valOfDigits_natDigitsRev (n : Nat) :
    valOfDigits (natDigitsRev n).reverse = n := by
  induction n using Nat.strong_induction_on with
  | _ n ih =>
    rw [natDigitsRev]
    split
    · simp [valOfDigits]
    · rename_i h
      rw [List.reverse_cons, valOfDigits_append,
        ih (n / 10) (Nat.div_lt_self (by omega) (by omega))]
      omega

theorem charToDigit_digitChar : ∀ d, d < 10 → charToDigit (digitChar d) = d := by decide

theorem isDigit_digitChar : ∀ d, d < 10 → (digitChar d).isDigit = true := by decide

theorem digitChar_ne_dash : ∀ d, d < 10 → digitChar d ≠ '-' := by decide

theorem parseNatDigits_render (n : Nat) :
    parseNatDigits ((natDigitsRev n).reverse.map digitChar) = some n := by
  have hne : (natDigitsRev n).reverse.map digitChar ≠ [] := by
    simp [natDigitsRev_ne_nil n]
  have hdig : ((natDigitsRev n).reverse.map digitChar).all Char.isDigit = true := by
    rw [List.all_eq_true]
    intro c hc
    rw [List.mem_map] at hc
    obtain ⟨d, hd, rfl⟩ := hc
    rw [List.mem_reverse] at hd
    exact isDigit_digitChar d (natDigitsRev_lt n d hd)
  rw [parseNatDigits, if_pos ⟨hne, hdig⟩]
  congr 1
  rw [List.foldl_map]
  have : ((natDigitsRev n).reverse).foldl (fun a d => a * 10 + charToDigit (digitChar d)) 0
      = ((natDigitsRev n).reverse).foldl (fun a d => a * 10 + d) 0 := by
    apply List.foldl_ext
    intro a d hd
    rw [List.mem_reverse] at hd
    rw [charToDigit_digitChar d (natDigitsRev_lt n d hd)]
  rw [this]
  exact valOfDigits_natDigitsRev n

theorem parseJsIntChars_digits (n : Nat) :
    parseJsIntChars ((natDigitsRev n).reverse.map digitChar) = some (n : Int) := by
  cases hd : (natDigitsRev n).reverse.map digitChar with
  | nil =>
    exact absurd (List.map_eq_nil_iff.mp hd) (by simp [natDigitsRev_ne_nil n])
  | cons c rest =>
    have hc : c ∈ (natDigitsRev n).reverse.map digitChar := by
      rw [hd]; exact List.mem_cons_self c rest
    rw [List.mem_map] at hc
    obtain ⟨d, hdm, rfl⟩ := hc
    rw [List.mem_reverse] at hdm
    have hne : digitChar d ≠ '-' := digitChar_ne_dash d (natDigitsRev_lt n d hdm)
    rw [parseJsIntChars, if_neg hne, ← hd, parseNatDigits_render n]
    rfl

theorem parseJsInt_jsString (n : Int) : parseJsInt (jsString n) = some n := by
  rw [jsString]
  split
  · rename_i hneg
    show parseJsIntChars ('-' :: (jsStringOfNat n.natAbs).data) = some n
    rw [parseJsIntChars, if_pos rfl]
    show (parseNatDigits ((natDigitsRev n.natAbs).reverse.map digitChar)).map
        (fun m => -(m : Int)) = some n
    rw [parseNatDigits_render n.natAbs]
    have h2 : -((n.natAbs : Int)) = n := by omega
    show some (-((n.natAbs : Int))) = some n
    rw [h2]
  · rename_i hpos
    show parseJsIntChars ((natDigitsRev n.natAbs).reverse.map digitChar) = some n
    rw [parseJsIntChars_digits n.natAbs]
    have h2 : ((n.natAbs : Int)) = n := by omega
    rw [h2]

theorem jsString_ne_empty (n : Int) : jsString n ≠ "" := by
  rw [jsString]
  have h1 : (natDigitsRev n.natAbs).reverse.map digitChar ≠ [] := by
    simp [natDigitsRev_ne_nil]
  split
  · intro h
    have := congrArg String.data h
    simp only [String.data] at this
    exact absurd this (by simp)
  · intro h
    have := congrArg String.data h
    simp only [jsStringOfNat, String.data] at this
    exact h1 this

theorem jsNumber_jsString (n : Int) : jsNumber (some (jsString n)) = .num n := by
  rw [jsNumber, if_neg (jsString_ne_empty n), parseJsInt_jsString n]

/-! ## Lemmas: attribute value round trip -/

theorem createAttributeValue_num (n : Int) (h : n ≠ 0) :
    createAttributeValue (.num n)
      = { DataType := NUMBER_TYPE, StringValue := some (jsString n) } := by
  simp [createAttributeValue, AttrVal.truthy, h]

theorem createAttributeValue_str (s : String) (h : s ≠ "") :
    createAttributeValue (.str s)
      = { DataType := STRING_TYPE, StringValue := some s } := by
  simp [createAttributeValue, AttrVal.truthy, h]

theorem createAttributeValue_bin (b : List Nat) :
    createAttributeValue (.bin b)
      = { DataType := BINARY_TYPE, BinaryValue := some b } := by
  simp [createAttributeValue, AttrVal.truthy]

theorem parseAttributeValue_number (sv : Option String) (bv : Option (List Nat)) :
    parseAttributeValue { DataType := NUMBER_TYPE, StringValue := sv, BinaryValue := bv }
      = jsNumber sv := by
  simp [parseAttributeValue]

theorem parseAttributeValue_string (sv : Option String) (bv : Option (List Nat)) :
    parseAttributeValue { DataType := STRING_TYPE, StringValue := sv, BinaryValue := bv }
      = jsOrStringBinary sv bv := by
  simp [parseAttributeValue, STRING_TYPE, NUMBER_TYPE, BINARY_TYPE]

theorem parseAttributeValue_binary (sv : Option String) (bv : Option (List Nat)) :
    parseAttributeValue { DataType := BINARY_TYPE, StringValue := sv, BinaryValue := bv }
      = binOrJsUndefined bv := by
  simp [parseAttributeValue, STRING_TYPE, NUMBER_TYPE, BINARY_TYPE]

theorem parse_createAttributeValue (v : AttrVal) (h : v.truthy = true) :
    parseAttributeValue (createAttributeValue v) = v := by
  cases v with
  | num n =>
    have hn : n ≠ 0 := by simpa [AttrVal.truthy] using h
    rw [createAttributeValue_num n hn, parseAttributeValue_number]
    exact jsNumber_jsString n
  | str s =>
    have hs : s ≠ "" := by simpa [AttrVal.truthy] using h
    rw [createAttributeValue_str s hs, parseAttributeValue_string]
    simp [jsOrStringBinary, hs]
  | bin b =>
    rw [createAttributeValue_bin b, parseAttributeValue_binary]
    rfl
  | jsUndefined => simp [AttrVal.truthy] at h

theorem createAttributeValue_falsy (v : AttrVal) (h : v.truthy = false) :
    createAttributeValue v = { DataType := STRING_TYPE, StringValue := some "" } := by
  rw [createAttributeValue, h]
  rfl

/-! ## Lemmas: JS object operations on association lists -/

theorem attrGet_eq_jsUndefined (attrs : List (String × AttrVal)) (k : String)
    (h : ∀ p ∈ attrs, p.1 ≠ k) : attrGet attrs k = .jsUndefined := by
  rw [attrGet]
  have hf : attrs.find? (fun p => p.1 == k) = none := by
    rw [List.find?_eq_none]
    intro p hp
    simp [h p hp]
  rw [hf]
  rfl

theorem not_key_of_attrGet_falsy (attrs : List (String × AttrVal)) (k : String)
    (hg : (attrGet attrs k).truthy = false)
    (ht : ∀ p ∈ attrs, p.2.truthy = true) :
    ∀ p ∈ attrs, p.1 ≠ k := by
  intro p hp hpk
  have hsome : (attrs.find? (fun q => q.1 == k)).isSome := by
    rw [List.find?_isSome]
    exact ⟨p, hp, by simp [hpk]⟩
  obtain ⟨q, hq⟩ := Option.isSome_iff_exists.mp hsome
  have hqmem : q ∈ attrs := List.mem_of_find?_eq_some hq
  have hget : attrGet attrs k = q.2 := by rw [attrGet, hq]; rfl
  rw [hget, ht q hqmem] at hg
  exact absurd hg (by simp)

theorem anyKey_eq_false {α : Type} (l : List (String × α)) (k : String)
    (h : ∀ p ∈ l, p.1 ≠ k) : l.any (fun p => p.1 == k) = false := by
  rw [List.any_eq_false]
  intro p hp
  simp [h p hp]

theorem jsSet_not_mem {α : Type} (m : List (String × α)) (k : String) (v : α)
    (h : ∀ p ∈ m, p.1 ≠ k) : jsSet m k v = m ++ [(k, v)] := by
  rw [jsSet, anyKey_eq_false m k h]
  rfl

theorem keys_createMessageAttributes (attrs : List (String × AttrVal)) :
    (createMessageAttributes attrs).map Prod.fst = attrs.map Prod.fst := by
  simp [createMessageAttributes]

theorem parse_createMessageAttributes (attrs : List (String × AttrVal))
    (ht : ∀ p ∈ attrs, p.2.truthy = true) :
    (createMessageAttributes attrs).map (fun p => (p.1, parseAttributeValue p.2)) = attrs := by
  rw [createMessageAttributes, List.map_map]
  have hcongr : ∀ p ∈ attrs,
      ((fun p : String × MessageAttributeValue => (p.1, parseAttributeValue p.2)) ∘
        (fun p : String × AttrVal => (p.1, createAttributeValue p.2))) p = id p := by
    intro p hp
    simp [Function.comp, parse_createAttributeValue p.2 (ht p hp)]
  rw [List.map_congr_left hcongr, List.map_id]

/-! ## C8: encoder attribute typing -/

/-- C8 (claim as stated is false): the numeric value 0 is falsy, so the
encoder replaces it by the empty string and tags it text, not numeric with
its decimal form. -/
theorem C8_claim_counterexample :
    createAttributeValue (.num 0)
      = { DataType := STRING_TYPE, StringValue := some "", BinaryValue := none }
    ∧ STRING_TYPE ≠ NUMBER_TYPE := by
  exact ⟨by decide, by decide⟩

/-- C8 amended: truthy numeric values become their decimal text form tagged
numeric; binary values are tagged binary; nonempty strings are tagged text;
every falsy value (absent, empty string, zero) is replaced by the empty
string and tagged text. -/
theorem C8_attribute_typing_amended (v : AttrVal) :
    (∀ n : Int, v = .num n → n ≠ 0 →
      createAttributeValue v = { DataType := NUMBER_TYPE, StringValue := some (jsString n) }) ∧
    (∀ b : List Nat, v = .bin b →
      createAttributeValue v = { DataType := BINARY_TYPE, BinaryValue := some b }) ∧
    (∀ s : String, v = .str s → s ≠ "" →
      createAttributeValue v = { DataType := STRING_TYPE, StringValue := some s }) ∧
    (v.truthy = false →
      createAttributeValue v = { DataType := STRING_TYPE, StringValue := some "" }) := by
  refine ⟨?_, ?_, ?_, ?_⟩
  · rintro n rfl hn
    exact createAttributeValue_num n hn
  · rintro b rfl
    exact createAttributeValue_bin b
  · rintro s rfl hs
    exact createAttributeValue_str s hs
  · intro h
    exact createAttributeValue_falsy v h

/-- C8 witness: the amended typing evaluated at the numeric value 3. -/
theorem C8_attribute_typing_amended_witness :
    createAttributeValue (.num 3)
      = { DataType := NUMBER_TYPE, StringValue := some (jsString 3) } :=
  (C8_attribute_typing_amended (.num 3)).1 3 rfl (by decide)

/-! ## C9: receive-failure handling -/

/-- C9 confirmed: an aborted receive call emits `aborted` and schedules no
retry; any other receive failure emits `error` and schedules exactly one
retry after the fixed poll-retry delay. -/
theorem C9_receive_failure (o : PollOpts) (errCode : Option String) :
    (errCode = some "RequestAbortedError" →
      handleReceiveFailure o errCode = ([.aborted], none)) ∧
    (errCode ≠ some "RequestAbortedError" →
      handleReceiveFailure o errCode = ([.error], some o.pollRetryMs)) := by
  constructor
  · rintro rfl
    rfl
  · intro h
    cases errCode with
    | none => rfl
    | some c =>
      have hc : c ≠ "RequestAbortedError" := by
        intro hcc
        exact h (by rw [hcc])
      simp [handleReceiveFailure, hc]

/-- C9 witness: both branches evaluated at concrete failure codes. -/
theorem C9_receive_failure_witness :
    handleReceiveFailure {} (some "RequestAbortedError") = ([.aborted], none) ∧
    handleReceiveFailure {} (some "Timeout") = ([.error], some 2000) := by
  constructor
  · exact (C9_receive_failure {} (some "RequestAbortedError")).1 rfl
  · exact (C9_receive_failure {} (some "Timeout")).2 (by decide)

/-! ## C10: constructor option clamping -/

/-- C10 confirmed: after construction, the delete batch size is at most 10,
the receive batch size is at most 10 and (for positive `maxInFlight`) at
most `maxInFlight`, and the minimum receive batch size is at most the
clamped receive batch size — for every caller-supplied option record. -/
theorem C10_constructor_clamp (o : RawNumericOpts) :
    (clampOpts o).deleteBatchSize ≤ 10 ∧
    (clampOpts o).receiveBatchSize ≤ 10 ∧
    (0 < o.maxInFlight → (clampOpts o).receiveBatchSize ≤ o.maxInFlight) ∧
    (clampOpts o).minReceiveBatchSize ≤ (clampOpts o).receiveBatchSize := by
  refine ⟨?_, ?_, ?_, ?_⟩ <;> simp only [clampOpts]
  · omega
  · split <;> omega
  · intro h
    split <;> omega
  · omega

/-- C10 witness: the clamps evaluated at an out-of-range option record. -/
theorem C10_constructor_clamp_witness :
    (clampOpts ⟨99, 99, 99, 7⟩).deleteBatchSize ≤ 10 ∧
    (clampOpts ⟨99, 99, 99, 7⟩).receiveBatchSize ≤ 7 := by
  have h := C10_constructor_clamp ⟨99, 99, 99, 7⟩
  exact ⟨h.1, h.2.2.1 (by decide)⟩

/-! ## C4: delete batching -/

/-- C4 confirmed: enqueuing a delete that brings the pending queue to exactly
the batch size immediately flushes those (oldest-first, i.e. all) items and
leaves no debounce timer pending; enqueuing below the batch size flushes
nothing and leaves the debounce timer armed (arming it if it was not
running), and the timer's expiry flushes exactly the currently queued items
and clears the timer. -/
theorem C4_delete_batching (bs : Nat) (s : DelBatcherState) (item : DeleteQueueItem)
    (hfresh : ∀ p ∈ s.delQueue, p.1 ≠ item.id) :
    (s.delQueue.length + 1 = bs →
      deleteMessage bs s item =
        ({ delQueue := [], delTimer := false },
         some ((s.delQueue ++ [(item.id, item)]).map (fun p => p.2)))) ∧
    (s.delQueue.length + 1 < bs →
      deleteMessage bs s item =
        ({ delQueue := s.delQueue ++ [(item.id, item)], delTimer := true }, none)) ∧
    (∀ t : DelBatcherState,
      delTimerFire t = ({ delQueue := [], delTimer := false }, t.delQueue.map (fun p => p.2))) := by
  have hset : jsSet s.delQueue item.id item = s.delQueue ++ [(item.id, item)] :=
    jsSet_not_mem s.delQueue item.id item hfresh
  have hlen : (jsSet s.delQueue item.id item).length = s.delQueue.length + 1 := by
    rw [hset]
    simp
  refine ⟨?_, ?_, fun t => rfl⟩
  · intro hbs
    rw [deleteMessage, if_pos (by omega)]
    rw [hset]
    have htake : (s.delQueue ++ [(item.id, item)]).take bs = s.delQueue ++ [(item.id, item)] := by
      apply List.take_of_length_le
      simp
      omega
    have hdrop : (s.delQueue ++ [(item.id, item)]).drop bs = [] := by
      apply List.drop_eq_nil_of_le
      simp
      omega
    rw [htake, hdrop]
  · intro hbs
    rw [deleteMessage, if_neg (by omega)]
    rw [hset]
    by_cases ht : s.delTimer
    · rw [ht]
      rfl
    · rw [Bool.not_eq_true] at ht
      rw [ht]
      rfl

/-- C4 witness: with batch size 2, the second enqueue flushes both items with
the timer cleared. -/
theorem C4_delete_batching_witness :
    deleteMessage 2 ⟨[("a", ⟨"a", "r1"⟩)], false⟩ ⟨"b", "r2"⟩
      = (⟨[], false⟩, some [⟨"a", "r1"⟩, ⟨"b", "r2"⟩]) := by
  have h := (C4_delete_batching 2 ⟨[("a", ⟨"a", "r1"⟩)], false⟩ ⟨"b", "r2"⟩ (by decide)).1
    (by decide)
  exact h

/-! ## C5: receive-loop backpressure -/

/-- C5 confirmed (for an engine with a positive `maxInFlight` and the default
minimum receive batch size in the concrete scenario): each issued receive
call requests the minimum of the configured receive batch size and the
remaining capacity, and a value below the minimum receive batch size pauses
the loop with no call; in particular at `maxInFlight = 5` with 5 in flight,
no call is issued, and handling one message issues exactly one new call
(requesting one message), after which no further call can start while it is
outstanding. -/
theorem C5_backpressure (o : PollOpts) (s : PollState) :
    (s.running = true → s.activeReq = false → o.maxInFlight ≠ 0 →
      getBatch o s =
        (if min (o.maxInFlight - s.inFlight) o.receiveBatchSize < o.minReceiveBatchSize
         then ({ s with paused := true }, none)
         else ({ s with activeReq := true },
               some (min (o.maxInFlight - s.inFlight) o.receiveBatchSize)))) ∧
    (o.maxInFlight = 5 → s.inFlight = 5 → s.running = true → s.activeReq = false →
     o.minReceiveBatchSize = 1 → 1 ≤ o.receiveBatchSize →
      getBatch o s = ({ s with paused := true }, none) ∧
      handledMessage o { s with paused := true } =
        ({ s with paused := false, inFlight := 4, activeReq := true }, [.handled], some 1) ∧
      getBatch o { s with paused := false, inFlight := 4, activeReq := true }
        = ({ s with paused := false, inFlight := 4, activeReq := true }, none)) := by
  constructor
  · intro hr ha hm
    rw [getBatch, if_neg (by simp [ha, hr])]
    have h0 : (o.maxInFlight == 0) = false := by simp [hm]
    simp only [h0, Bool.false_eq_true, if_false]
  · rintro h5 hi hr ha hmin hrecv
    rcases o with ⟨mif, rb, mrb, pr⟩
    rcases s with ⟨rn, ps, infl, ar⟩
    simp only at h5 hi hr ha hmin hrecv
    subst h5 hi hr ha hmin
    have hmin0 : min ((5 : Int) - 5) rb < 1 := by omega
    have hmin1 : min ((5 : Int) - (5 - 1)) rb = 1 := by omega
    refine ⟨?_, ?_, ?_⟩
    · rw [getBatch]
      rw [if_neg (by simp)]
      rw [show ((5 : Int) == 0) = false from by decide]
      simp only [Bool.false_eq_true, if_false]
      rw [if_pos hmin0]
    · rw [handledMessage]
      simp only [slotsAvailable]
      rw [getBatch]
      norm_num
      rw [if_neg (by omega)]
      refine ⟨rfl, ?_⟩
      rw [show ((1 : Int) ⊓ rb) = 1 from by omega]
    · rw [getBatch]
      rw [if_pos (by simp)]

/-- C5 witness: the backpressure scenario at a concrete engine
configuration. -/
theorem C5_backpressure_witness :
    getBatch { maxInFlight := 5, receiveBatchSize := 3, minReceiveBatchSize := 1, pollRetryMs := 2000 }
      { running := true, paused := false, inFlight := 5, activeReq := false }
      = ({ running := true, paused := true, inFlight := 5, activeReq := false }, none) ∧
    handledMessage { maxInFlight := 5, receiveBatchSize := 3, minReceiveBatchSize := 1, pollRetryMs := 2000 }
      { running := true, paused := true, inFlight := 5, activeReq := false }
      = ({ running := true, paused := false, inFlight := 4, activeReq := true }, [.handled], some 1) := by
  have h := (C5_backpressure
    { maxInFlight := 5, receiveBatchSize := 3, minReceiveBatchSize := 1, pollRetryMs := 2000 }
    { running := true, paused := false, inFlight := 5, activeReq := false }).2
    rfl rfl rfl rfl rfl (by decide)
  exact ⟨h.1, h.2.1⟩

/-! ## C2: in-flight counter invariant -/

theorem getBatch_inFlight (o : PollOpts) (t : PollState) :
    (getBatch o t).1.inFlight = t.inFlight := by
  rw [getBatch]
  split
  · rfl
  · dsimp only
    split_ifs <;> rfl

theorem handledMessage_fst_inFlight (o : PollOpts) (s : PollState) :
    (handledMessage o s).1.inFlight = s.inFlight - 1 := by
  rw [handledMessage]
  dsimp only
  split
  · exact getBatch_inFlight o _
  · rfl

theorem handledMessage_events (o : PollOpts) (s : PollState) :
    (handledMessage o s).2.1 = [.handled] ++ (if (s.inFlight - 1) == 0 then [.drained] else []) :=
  rfl

theorem runEngine_append (o : PollOpts) (s : PollState) (p q : List EngineOp) :
    runEngine o s (p ++ q) = runEngine o (runEngine o s p) q := by
  rw [runEngine, runEngine, runEngine, List.foldl_append]

theorem runEngine_inFlight (o : PollOpts) :
    ∀ (ops : List EngineOp) (s : PollState),
      (runEngine o s ops).inFlight = s.inFlight + receivedTotal ops - handledTotal ops
  | [], s => by simp [runEngine, receivedTotal, handledTotal]
  | .receive n :: rest, s => by
    rw [runEngine, List.foldl_cons, ← runEngine, runEngine_inFlight o rest]
    rw [receivedTotal, handledTotal]
    show s.inFlight + n + _ - _ = _
    push_cast
    ring_nf
  | .handle :: rest, s => by
    rw [runEngine, List.foldl_cons, ← runEngine, runEngine_inFlight o rest]
    rw [receivedTotal, handledTotal]
    show (handledMessage o s).1.inFlight + _ - _ = _
    rw [handledMessage_fst_inFlight]
    push_cast
    ring_nf

theorem validFrom_append (o : PollOpts) :
    ∀ (p q : List EngineOp) (s : PollState),
      validFrom o s (p ++ q) = (validFrom o s p && validFrom o (runEngine o s p) q)
  | [], q, s => by simp [validFrom, runEngine]
  | op :: rest, q, s => by
    rw [List.cons_append, validFrom, validFrom_append o rest q (engineStep o s op), validFrom]
    rw [show runEngine o s (op :: rest) = runEngine o (engineStep o s op) rest from rfl]
    rw [Bool.and_assoc]

theorem runEngine_nonneg (o : PollOpts) :
    ∀ (ops : List EngineOp) (s : PollState), validFrom o s ops = true →
      0 ≤ s.inFlight → 0 ≤ (runEngine o s ops).inFlight
  | [], s, _, h0 => h0
  | .receive n :: rest, s, hv, h0 => by
    rw [validFrom, Bool.and_eq_true] at hv
    rw [runEngine, List.foldl_cons, ← runEngine]
    exact runEngine_nonneg o rest _ hv.2 (by simp only [engineStep]; omega)
  | .handle :: rest, s, hv, h0 => by
    rw [validFrom, Bool.and_eq_true] at hv
    have hpos : 0 < s.inFlight := by
      have := hv.1
      simp at this
      exact this
    rw [runEngine, List.foldl_cons, ← runEngine]
    refine runEngine_nonneg o rest _ hv.2 ?_
    show 0 ≤ (handledMessage o s).1.inFlight
    rw [handledMessage_fst_inFlight]
    omega

/-- C2 confirmed (for traces in which `handledMessage` is called once per
received, still-unhandled message): the in-flight counter never goes
negative, it is zero exactly when as many messages were handled as were
received, and each handle that returns the counter to zero emits `drained`
exactly once while every other step emits it zero times. -/
theorem C2_inflight_invariant (o : PollOpts) (s0 : PollState) (ops : List EngineOp)
    (h0 : s0.inFlight = 0) (hv : validFrom o s0 ops = true) :
    (∀ p q : List EngineOp, ops = p ++ q → 0 ≤ (runEngine o s0 p).inFlight) ∧
    (handledTotal ops = receivedTotal ops → (runEngine o s0 ops).inFlight = 0) ∧
    (∀ (p : List EngineOp) (op : EngineOp) (q : List EngineOp), ops = p ++ op :: q →
      ((engineStepEvents o (runEngine o s0 p) op).count EngineEvent.drained =
        if op = .handle ∧ (runEngine o s0 (p ++ [op])).inFlight = 0 then 1 else 0)) := by
  refine ⟨?_, ?_, ?_⟩
  · rintro p q rfl
    rw [validFrom_append, Bool.and_eq_true] at hv
    exact runEngine_nonneg o p s0 hv.1 (by omega)
  · intro hbal
    rw [runEngine_inFlight]
    omega
  · rintro p op q rfl
    have hstep : runEngine o s0 (p ++ [op]) = engineStep o (runEngine o s0 p) op := by
      rw [runEngine_append]
      rfl
    cases op with
    | receive n =>
      rw [engineStepEvents]
      rw [if_neg (by simp)]
      simp [List.count_replicate]
    | handle =>
      rw [engineStepEvents, handledMessage_events]
      rw [hstep]
      have hin : (engineStep o (runEngine o s0 p) .handle).inFlight
          = (runEngine o s0 p).inFlight - 1 := handledMessage_fst_inFlight o _
      rw [hin]
      by_cases hz : (runEngine o s0 p).inFlight - 1 = 0
      · rw [if_pos (show (((runEngine o s0 p).inFlight - 1) == 0) = true from by simp [hz])]
        rw [if_pos (show EngineOp.handle = EngineOp.handle ∧ _ from ⟨rfl, hz⟩)]
        rfl
      · rw [if_neg (show ¬(((runEngine o s0 p).inFlight - 1) == 0) = true from by simp [hz])]
        rw [if_neg (fun hc => hz hc.2)]
        rfl

/-- C2 witness: a concrete trace receiving two messages and handling both. -/
theorem C2_inflight_invariant_witness :
    (runEngine {} {} [.receive 2, .handle, .handle]).inFlight = 0 :=
  (C2_inflight_invariant {} {} [.receive 2, .handle, .handle] rfl (by decide)).2.1 (by decide)

/-! ## C3: send batching -/

theorem pushLast_append {α : Type} (l : List (List α)) (b : List α) (m : α) :
    pushLast (l ++ [b]) m = l ++ [b ++ [m]] := by
  induction l with
  | nil => rfl
  | cons a l' ih =>
    cases l' with
    | nil => rfl
    | cons a' l'' =>
      show a :: pushLast ((a' :: l'') ++ [b]) m = a :: ((a' :: l'') ++ [b ++ [m]])
      rw [ih]

theorem sendBatch_loop (M : Int) :
    ∀ (msgs : List ISendMessageRequest) (done : List (List ISendMessageRequest))
      (cur : List ISendMessageRequest),
      (∀ m ∈ msgs, getMessageSize m < M) →
      (∀ b ∈ done, b ≠ [] ∧ b.length ≤ 10 ∧ (b.map getMessageSize).sum < M) →
      cur ≠ [] → cur.length ≤ 10 → (cur.map getMessageSize).sum < M →
      (msgs.foldl (sendBatchStep M)
          ⟨done ++ [cur], (cur.map getMessageSize).sum, cur.length⟩).batches.flatten
        = done.flatten ++ cur ++ msgs ∧
      ∀ b ∈ (msgs.foldl (sendBatchStep M)
          ⟨done ++ [cur], (cur.map getMessageSize).sum, cur.length⟩).batches,
        b ≠ [] ∧ b.length ≤ 10 ∧ (b.map getMessageSize).sum < M
  | [], done, cur, _, hdone, hne, hlen, hsum => by
    constructor
    · simp [List.foldl_nil]
    · intro b hb
      rw [List.foldl_nil] at hb
      simp only [List.mem_append, List.mem_singleton] at hb
      rcases hb with hb | rfl
      · exact hdone b hb
      · exact ⟨hne, hlen, hsum⟩
  | m :: rest, done, cur, hmsgs, hdone, hne, hlen, hsum => by
    have hm : getMessageSize m < M := hmsgs m (List.mem_cons_self m rest)
    have hrest : ∀ x ∈ rest, getMessageSize x < M :=
      fun x hx => hmsgs x (List.mem_cons_of_mem m hx)
    rw [List.foldl_cons]
    by_cases hcond : cur.length % AWS_MAX_SEND_BATCH = 0
        ∨ (cur.map getMessageSize).sum + getMessageSize m ≥ M
    · have hstep : sendBatchStep M ⟨done ++ [cur], (cur.map getMessageSize).sum, cur.length⟩ m
          = ⟨(done ++ [cur]) ++ [[m]], getMessageSize m, 1⟩ := by
        rw [sendBatchStep]
        dsimp only
        rw [if_pos hcond]
        show SendBatchAcc.mk (pushLast ((done ++ [cur]) ++ [[]]) m) (0 + getMessageSize m) (0 + 1)
          = ⟨(done ++ [cur]) ++ [[m]], getMessageSize m, 1⟩
        rw [pushLast_append]
        norm_num
      rw [hstep]
      have hdone' : ∀ b ∈ done ++ [cur], b ≠ [] ∧ b.length ≤ 10 ∧ (b.map getMessageSize).sum < M := by
        intro b hb
        simp only [List.mem_append, List.mem_singleton] at hb
        rcases hb with hb | rfl
        · exact hdone b hb
        · exact ⟨hne, hlen, hsum⟩
      have ih := sendBatch_loop M rest (done ++ [cur]) [m] hrest hdone'
        (by simp) (by simp) (by simpa using hm)
      simp only [List.map_cons, List.map_nil, List.sum_cons, List.sum_nil, add_zero,
        List.length_cons, List.length_nil] at ih
      refine ⟨?_, ih.2⟩
      rw [ih.1]
      simp
    · push_neg at hcond
      have hstep : sendBatchStep M ⟨done ++ [cur], (cur.map getMessageSize).sum, cur.length⟩ m
          = ⟨done ++ [cur ++ [m]], (cur.map getMessageSize).sum + getMessageSize m,
             cur.length + 1⟩ := by
        rw [sendBatchStep]
        dsimp only
        rw [if_neg (by push_neg; exact hcond)]
        show SendBatchAcc.mk (pushLast (done ++ [cur]) m) _ _ = _
        rw [pushLast_append]
      rw [hstep]
      have hlen' : cur.length < 10 := by
        have h10 : cur.length % AWS_MAX_SEND_BATCH ≠ 0 := hcond.1
        rw [AWS_MAX_SEND_BATCH] at h10
        omega
      have ih := sendBatch_loop M rest done (cur ++ [m]) hrest hdone
        (by simp) (by simp; omega) (by simp; omega)
      simp only [List.map_append, List.map_cons, List.map_nil, List.sum_append,
        List.sum_cons, List.sum_nil, add_zero, List.length_append, List.length_cons,
        List.length_nil] at ih
      refine ⟨?_, ih.2⟩
      rw [ih.1]
      simp

/-- C3 (claim as stated is false): a single request whose size meets the
queue maximum message size is put in a batch whose cumulative size is not
strictly below that maximum. -/
theorem C3_claim_counterexample :
    sendMessagesBatches 5 [{ MessageBody := .plain "aaaaa" }]
      = [[{ MessageBody := .plain "aaaaa" }]] ∧
    ¬ (([({ MessageBody := .plain "aaaaa" } : ISendMessageRequest)].map getMessageSize).sum < 5) := by
  constructor
  · rfl
  · decide

/-- C3 amended: `sendMessages` groups the requests in input order (their
concatenation in batch order is the input list), and — provided every single
request's size is strictly below the queue maximum message size — every
batch is nonempty with at most `AWS_MAX_SEND_BATCH` (10) requests and
cumulative size strictly below the maximum. -/
theorem C3_send_batching_amended (M : Int) (reqs : List ISendMessageRequest)
    (h : ∀ r ∈ reqs, getMessageSize r < M) :
    (sendMessagesBatches M reqs).flatten = reqs ∧
    ∀ b ∈ sendMessagesBatches M reqs,
      b ≠ [] ∧ b.length ≤ AWS_MAX_SEND_BATCH ∧ (b.map getMessageSize).sum < M := by
  cases reqs with
  | nil =>
    constructor
    · rfl
    · intro b hb
      simp [sendMessagesBatches] at hb
  | cons m rest =>
    have hm : getMessageSize m < M := h m (List.mem_cons_self m rest)
    have hrest : ∀ x ∈ rest, getMessageSize x < M :=
      fun x hx => h x (List.mem_cons_of_mem m hx)
    rw [sendMessagesBatches, List.foldl_cons]
    have hstep : sendBatchStep M ⟨[], 0, 0⟩ m = ⟨[] ++ [[m]], getMessageSize m, 1⟩ := by
      rw [sendBatchStep]
      dsimp only
      rw [if_pos (show (0 % AWS_MAX_SEND_BATCH = 0 ∨ (0 : Int) + getMessageSize m ≥ M)
        from Or.inl rfl)]
      show SendBatchAcc.mk (pushLast ([] ++ [[]]) m) (0 + getMessageSize m) (0 + 1) = _
      rw [pushLast_append]
      norm_num
    rw [hstep]
    have ih := sendBatch_loop M rest [] [m] hrest (by simp) (by simp) (by simp)
      (by simpa using hm)
    simp only [List.map_cons, List.map_nil, List.sum_cons, List.sum_nil, add_zero,
      List.length_cons, List.length_nil] at ih
    refine ⟨?_, ?_⟩
    · rw [ih.1]
      simp
    · exact ih.2

/-- C3 witness: three small requests below the cap form one legal batch. -/
theorem C3_send_batching_amended_witness :
    (sendMessagesBatches 100 [{ MessageBody := .plain "abc" }]).flatten
      = [{ MessageBody := .plain "abc" }] :=
  (C3_send_batching_amended 100 [{ MessageBody := .plain "abc" }] (by decide)).1

/-! ## C6: reserved-attribute rejection -/

/-- C6 (claim as stated is false): a declared attribute under the
compression marker name whose value is falsy (here the number 0) passes the
reserved-name check, and the send proceeds to the network call. -/
theorem C6_claim_counterexample :
    (sendMessage {} {} { queueUrl := "u" } "hi" none
        (some [(GZIP_MARKER, AttrVal.num 0)])).1
      = .ok { MessageBody := .plain "hi",
              MessageAttributes :=
                some [(GZIP_MARKER, { DataType := STRING_TYPE, StringValue := some "" })] } ∧
    NetworkCall.sqsSendMessage
      ∈ (sendMessage {} {} { queueUrl := "u" } "hi" none
          (some [(GZIP_MARKER, AttrVal.num 0)])).2.2 := by
  constructor
  · rfl
  · decide

/-- C6 amended: a declared attribute map containing the compression or
offload marker name with a truthy value fails the send with a
reserved-attribute error, and (with the queue URL already resolved) no
network call is performed. -/
theorem C6_reserved_attribute_amended (opts : SquissOpts) (env : QueueEnv) (st : SquissState)
    (message : String) (delay : Option Int) (attrs : List (String × AttrVal))
    (hurl : st.queueUrl ≠ "")
    (hmarker : (attrGet attrs GZIP_MARKER).truthy = true
      ∨ (attrGet attrs S3_MARKER).truthy = true) :
    (∃ m, (sendMessage opts env st message delay (some attrs)).1
        = .error (.reservedAttribute m)) ∧
    (sendMessage opts env st message delay (some attrs)).2.2 = [] := by
  have hq : getQueueUrl env st = (st.queueUrl, st, []) := by
    rw [getQueueUrl, if_pos (by simp [hurl])]
  have hbase : ∃ m, perpareBase message delay (some attrs) = .error (.reservedAttribute m) := by
    by_cases hg : (attrGet attrs GZIP_MARKER).truthy = true
    · refine ⟨GZIP_MARKER, ?_⟩
      rw [perpareBase]
      rw [if_pos hg]
    · have hs : (attrGet attrs S3_MARKER).truthy = true := by
        rcases hmarker with h | h
        · exact absurd h hg
        · exact h
      refine ⟨S3_MARKER, ?_⟩
      rw [perpareBase]
      rw [if_neg hg, if_pos hs]
  obtain ⟨m, hm⟩ := hbase
  have hprep : perpareMessageRequest opts env st message delay (some attrs)
      = .error (.reservedAttribute m) := by
    rw [perpareMessageRequest, hm]
  constructor
  · refine ⟨m, ?_⟩
    rw [sendMessage]
    rw [hq]
    dsimp only
    rw [hprep]
  · rw [sendMessage]
    rw [hq]
    dsimp only
    rw [hprep]

/-- C6 witness: the amended rejection evaluated at a truthy marker value. -/
theorem C6_reserved_attribute_amended_witness :
    (∃ m, (sendMessage {} {} { queueUrl := "u" } "hi" none
        (some [(S3_MARKER, AttrVal.num 1)])).1 = .error (.reservedAttribute m)) ∧
    (sendMessage {} {} { queueUrl := "u" } "hi" none
        (some [(S3_MARKER, AttrVal.num 1)])).2.2 = [] :=
  C6_reserved_attribute_amended {} {} { queueUrl := "u" } "hi" none
    [(S3_MARKER, AttrVal.num 1)] (by decide) (Or.inr (by decide))

/-! ## C7: blob-offload threshold -/

/-- C7 (claim as stated is false): with a configured minimum-offload-size
override of 10 and a request of total size exactly 10 (at the threshold),
the body is not offloaded — the code offloads only strictly above the
override. -/
theorem C7_claim_counterexample :
    getMessageSize { MessageBody := .plain "aaaaaaaaaa" } = 10 ∧
    (perpareMessageRequest { s3Fallback := true, minS3Size := 10, s3Bucket := "b" } {}
        { queueUrl := "u" } "aaaaaaaaaa" none none)
      = .ok ({ MessageBody := .plain "aaaaaaaaaa" }, { queueUrl := "u" }, []) := by
  constructor
  · rfl
  · rfl

/-- C7 amended: with the s3 fallback enabled, the body is offloaded exactly
when the total request size is strictly above the minimum-offload-size
override when one is configured, and otherwise at or above the queue's
maximum message size (queried lazily and cached: the override or a cached
value issues no queue call, and the fetched value is cached); on offload the
wire body is replaced by the blob-pointer payload whose size field is the
uploaded body's size, recorded in the offload marker attribute. -/
theorem C7_offload_threshold_amended (opts : SquissOpts) (env : QueueEnv) (st : SquissState)
    (params : ISendMessageRequest) (finalMessage : MessageBody)
    (hs3 : opts.s3Fallback = true) :
    ∀ lg st1 calls,
      isLargeMessage env st { params with MessageBody := finalMessage } opts.minS3Size
        = (lg, st1, calls) →
      (lg = true ↔
        (if opts.minS3Size ≠ 0
         then getMessageSize { params with MessageBody := finalMessage } > opts.minS3Size
         else getMessageSize { params with MessageBody := finalMessage }
                ≥ effectiveQueueMaximumMessageSize env st)) ∧
      (st1.queueMaximumMessageSize
        = if opts.minS3Size ≠ 0 then st.queueMaximumMessageSize
          else effectiveQueueMaximumMessageSize env st) ∧
      (opts.minS3Size ≠ 0 ∨ st.queueMaximumMessageSize ≠ 0 → calls = []) ∧
      (lg = false →
        applyS3 opts env st params finalMessage
          = ({ params with MessageBody := finalMessage }, st1, calls)) ∧
      (lg = true →
        applyS3 opts env st params finalMessage
          = ({ params with
                MessageBody := .s3Pointer
                  ⟨opts.s3Bucket, opts.s3Pre ++ jsStringOfNat st1.s3.length,
                   finalMessage.byteLength⟩,
                MessageAttributes := some (jsSet (params.MessageAttributes.getD []) S3_MARKER
                  { DataType := NUMBER_TYPE,
                    StringValue := some (jsStringOfNat finalMessage.byteLength) }) },
             { st1 with
                s3 := (opts.s3Pre ++ jsStringOfNat st1.s3.length, finalMessage) :: st1.s3 },
             calls ++ [.s3Put opts.s3Bucket (opts.s3Pre ++ jsStringOfNat st1.s3.length)])) := by
  intro lg st1 calls h_eq
  have c45 : (lg = false →
        applyS3 opts env st params finalMessage
          = ({ params with MessageBody := finalMessage }, st1, calls)) ∧
      (lg = true →
        applyS3 opts env st params finalMessage
          = ({ params with
                MessageBody := .s3Pointer
                  ⟨opts.s3Bucket, opts.s3Pre ++ jsStringOfNat st1.s3.length,
                   finalMessage.byteLength⟩,
                MessageAttributes := some (jsSet (params.MessageAttributes.getD []) S3_MARKER
                  { DataType := NUMBER_TYPE,
                    StringValue := some (jsStringOfNat finalMessage.byteLength) }) },
             { st1 with
                s3 := (opts.s3Pre ++ jsStringOfNat st1.s3.length, finalMessage) :: st1.s3 },
             calls ++ [.s3Put opts.s3Bucket (opts.s3Pre ++ jsStringOfNat st1.s3.length)])) := by
    constructor
    · intro hlg
      simp only [applyS3, hs3, Bool.not_true, Bool.false_eq_true, if_false, h_eq, hlg]
      rfl
    · intro hlg
      simp only [applyS3, hs3, Bool.not_true, Bool.false_eq_true, if_false, h_eq, hlg]
      simp only [uploadBlob]
  by_cases hmin : opts.minS3Size = 0
  · simp only [isLargeMessage] at h_eq
    rw [if_neg (by simp [hmin])] at h_eq
    by_cases hcached : st.queueMaximumMessageSize = 0
    · simp only [getQueueMaximumMessageSize] at h_eq
      rw [if_neg (by simp [hcached])] at h_eq
      simp only [Prod.mk.injEq] at h_eq
      obtain ⟨hlg, hst1, hcalls⟩ := h_eq
      subst hlg
      subst hst1
      subst hcalls
      refine ⟨?_, ?_, ?_, c45.1, c45.2⟩
      · rw [if_neg (by simp [hmin])]
        rw [effectiveQueueMaximumMessageSize, if_neg (by simp [hcached])]
        simp
      · rw [if_neg (by simp [hmin])]
        rw [effectiveQueueMaximumMessageSize, if_neg (by simp [hcached])]
      · rintro (h | h)
        · exact absurd hmin h
        · exact absurd hcached h
    · simp only [getQueueMaximumMessageSize] at h_eq
      rw [if_pos (by simp [hcached])] at h_eq
      simp only [Prod.mk.injEq] at h_eq
      obtain ⟨hlg, hst1, hcalls⟩ := h_eq
      subst hlg
      subst hst1
      subst hcalls
      refine ⟨?_, ?_, ?_, c45.1, c45.2⟩
      · rw [if_neg (by simp [hmin])]
        rw [effectiveQueueMaximumMessageSize, if_pos (by simp [hcached])]
        simp
      · rw [if_neg (by simp [hmin])]
        rw [effectiveQueueMaximumMessageSize, if_pos (by simp [hcached])]
      · intro _
        rfl
  · simp only [isLargeMessage] at h_eq
    rw [if_pos (by simp [hmin])] at h_eq
    simp only [Prod.mk.injEq] at h_eq
    obtain ⟨hlg, hst1, hcalls⟩ := h_eq
    subst hlg
    subst hst1
    subst hcalls
    refine ⟨?_, ?_, ?_, c45.1, c45.2⟩
    · rw [if_pos hmin]
      simp
    · rw [if_pos hmin]
    · intro _
      rfl

/-- C7 witness: a body one byte above the override is offloaded, the wire
body becomes the pointer payload, and the marker attribute records the
uploaded size 11. -/
theorem C7_offload_threshold_amended_witness :
    applyS3 { s3Fallback := true, minS3Size := 10, s3Bucket := "b" } {} { queueUrl := "u" }
        { MessageBody := .plain "x" } (.plain "aaaaaaaaaaa")
      = ({ MessageBody := .s3Pointer ⟨"b", "" ++ jsStringOfNat 0, 11⟩,
           MessageAttributes := some [(S3_MARKER,
             { DataType := NUMBER_TYPE, StringValue := some (jsStringOfNat 11) })] },
         { queueUrl := "u", s3 := [("" ++ jsStringOfNat 0, .plain "aaaaaaaaaaa")] },
         [.s3Put "b" ("" ++ jsStringOfNat 0)]) := by
  have h := (C7_offload_threshold_amended { s3Fallback := true, minS3Size := 10, s3Bucket := "b" }
    {} { queueUrl := "u" } { MessageBody := .plain "x" } (.plain "aaaaaaaaaaa") rfl
    true { queueUrl := "u" } [] rfl).2.2.2.2 rfl
  rw [h]
  rfl

/-! ## C1: encode/decode round trip — helper lemmas -/

theorem keys_ne_of_create (attrs : List (String × AttrVal)) (k : String)
    (h : ∀ p ∈ attrs, p.1 ≠ k) :
    ∀ q ∈ createMessageAttributes attrs, q.1 ≠ k := by
  intro q hq
  rw [createMessageAttributes, List.mem_map] at hq
  obtain ⟨p, hp, rfl⟩ := hq
  exact h p hp

theorem perpareBase_ok (body : String) (delay : Option Int) (attrs : List (String × AttrVal))
    (hg : (attrGet attrs GZIP_MARKER).truthy = false)
    (hs : (attrGet attrs S3_MARKER).truthy = false)
    (hfg : (attrGet attrs "FIFO_MessageGroupId").truthy = false)
    (hfd : (attrGet attrs "FIFO_MessageDeduplicationId").truthy = false) :
    perpareBase body delay (some attrs)
      = .ok (basePreparedRequest body delay attrs, body) := by
  cases delay with
  | none => simp [perpareBase, basePreparedRequest, delayField, hg, hs, hfg, hfd]
  | some d =>
    by_cases hd : d = 0
    · simp [perpareBase, basePreparedRequest, delayField, hg, hs, hfg, hfd, hd]
    · simp [perpareBase, basePreparedRequest, delayField, hg, hs, hfg, hfd, hd]

theorem applyGzip_off (opts : SquissOpts) (P : ISendMessageRequest) (s : String)
    (h : opts.gzip = false) : applyGzip opts P s = (P, .plain s) := by
  simp [applyGzip, h]

theorem applyGzip_skip (opts : SquissOpts) (P : ISendMessageRequest) (s : String)
    (h : opts.gzip = true)
    (ht : (opts.minGzipSize != 0) = true ∧ getMessageSize P < opts.minGzipSize) :
    applyGzip opts P s = (P, .plain s) := by
  rw [applyGzip, h]
  rw [if_pos rfl, if_pos ht]

theorem applyGzip_on (opts : SquissOpts) (P : ISendMessageRequest) (s : String)
    (h : opts.gzip = true)
    (ht : ¬((opts.minGzipSize != 0) = true ∧ getMessageSize P < opts.minGzipSize)) :
    applyGzip opts P s
      = ({ P with MessageAttributes := some (jsSet (P.MessageAttributes.getD []) GZIP_MARKER
            { DataType := NUMBER_TYPE, StringValue := some "1" }) },
         .gzipped s) := by
  rw [applyGzip, h]
  rw [if_pos rfl, if_neg ht]
  rfl

theorem applyS3_off (opts : SquissOpts) (env : QueueEnv) (st : SquissState)
    (P : ISendMessageRequest) (fm : MessageBody) (h : opts.s3Fallback = false) :
    applyS3 opts env st P fm = ({ P with MessageBody := fm }, st, []) := by
  simp [applyS3, h]

theorem applyS3_small (opts : SquissOpts) (env : QueueEnv) (st : SquissState)
    (P : ISendMessageRequest) (fm : MessageBody) (params2 : ISendMessageRequest)
    (hp : { P with MessageBody := fm } = params2) (h : opts.s3Fallback = true)
    (hl : (isLargeMessage env st params2 opts.minS3Size).1 = false) :
    applyS3 opts env st P fm
      = (params2,
         (isLargeMessage env st params2 opts.minS3Size).2.1,
         (isLargeMessage env st params2 opts.minS3Size).2.2) := by
  subst hp
  simp only [applyS3, h, Bool.not_true, Bool.false_eq_true, if_false, hl]
  rfl

theorem applyS3_large (opts : SquissOpts) (env : QueueEnv) (st : SquissState)
    (P : ISendMessageRequest) (fm : MessageBody) (params2 : ISendMessageRequest)
    (hp : { P with MessageBody := fm } = params2) (h : opts.s3Fallback = true)
    (hl : (isLargeMessage env st params2 opts.minS3Size).1 = true) :
    applyS3 opts env st P fm
      = ({ params2 with
            MessageBody := .s3Pointer
              ⟨opts.s3Bucket,
               opts.s3Pre ++ jsStringOfNat
                 (isLargeMessage env st params2 opts.minS3Size).2.1.s3.length,
               fm.byteLength⟩,
            MessageAttributes := some (jsSet (params2.MessageAttributes.getD []) S3_MARKER
              { DataType := NUMBER_TYPE, StringValue := some (jsStringOfNat fm.byteLength) }) },
         { (isLargeMessage env st params2 opts.minS3Size).2.1 with
            s3 := (opts.s3Pre ++ jsStringOfNat
                     (isLargeMessage env st params2 opts.minS3Size).2.1.s3.length,
                   fm)
              :: (isLargeMessage env st params2 opts.minS3Size).2.1.s3 },
         (isLargeMessage env st params2 opts.minS3Size).2.2
           ++ [.s3Put opts.s3Bucket
                (opts.s3Pre ++ jsStringOfNat
                  (isLargeMessage env st params2 opts.minS3Size).2.1.s3.length)]) := by
  subst hp
  simp only [applyS3, h, Bool.not_true, Bool.false_eq_true, if_false, hl]
  simp only [uploadBlob]

theorem isLargeMessage_s3 (env : QueueEnv) (st : SquissState) (m : ISendMessageRequest)
    (minSize : Int) : (isLargeMessage env st m minSize).2.1.s3 = st.s3 := by
  simp only [isLargeMessage, getQueueMaximumMessageSize, getQueueUrl]
  split_ifs <;> rfl

theorem s3Lookup_head (store : S3State) (k : String) (b : MessageBody) :
    s3Lookup ((k, b) :: store) k = some b := by
  simp [s3Lookup, List.find?]

theorem decode_filter_attrs (attrs : List (String × AttrVal))
    (extra : List (String × MessageAttributeValue))
    (h_truthy : ∀ p ∈ attrs, p.2.truthy = true)
    (hg : ∀ p ∈ attrs, p.1 ≠ GZIP_MARKER) (hs : ∀ p ∈ attrs, p.1 ≠ S3_MARKER)
    (hx : ∀ q ∈ extra, q.1 = GZIP_MARKER ∨ q.1 = S3_MARKER) :
    (parseMessageAttributes (some (createMessageAttributes attrs ++ extra))).filter
      (fun p => p.1 != GZIP_MARKER && p.1 != S3_MARKER) = attrs := by
  rw [parseMessageAttributes]
  rw [show (some (createMessageAttributes attrs ++ extra)).getD []
      = createMessageAttributes attrs ++ extra from rfl]
  rw [List.map_append, List.filter_append]
  have h1 : ((createMessageAttributes attrs).map (fun p => (p.1, parseAttributeValue p.2))).filter
      (fun p => p.1 != GZIP_MARKER && p.1 != S3_MARKER)
      = (createMessageAttributes attrs).map (fun p => (p.1, parseAttributeValue p.2)) := by
    rw [List.filter_eq_self]
    intro a ha
    rw [List.mem_map] at ha
    obtain ⟨q, hq, rfl⟩ := ha
    have h1g := keys_ne_of_create attrs GZIP_MARKER hg q hq
    have h1s := keys_ne_of_create attrs S3_MARKER hs q hq
    simp [h1g, h1s]
  have h2 : ((extra.map (fun p => (p.1, parseAttributeValue p.2))).filter
      (fun p => p.1 != GZIP_MARKER && p.1 != S3_MARKER)) = [] := by
    rw [List.filter_eq_nil_iff]
    intro a ha
    rw [List.mem_map] at ha
    obtain ⟨q, hq, rfl⟩ := ha
    rcases hx q hq with h | h <;> simp [h]
  rw [h1, h2, parse_createMessageAttributes attrs h_truthy, List.append_nil]

theorem decodeMessage_plain (store : S3State) (s : String)
    (wire : List (String × MessageAttributeValue))
    (hs3 : wire.any (fun p => p.1 == S3_MARKER) = false)
    (hgz : wire.any (fun p => p.1 == GZIP_MARKER) = false) :
    decodeMessage store ⟨.plain s, some wire⟩
      = some (s, (parseMessageAttributes (some wire)).filter
          (fun p => p.1 != GZIP_MARKER && p.1 != S3_MARKER)) := by
  rw [decodeMessage]
  simp only [Option.getD_some, hs3, hgz, Bool.false_eq_true, if_false]

theorem decodeMessage_gzipped (store : S3State) (s : String)
    (wire : List (String × MessageAttributeValue))
    (hs3 : wire.any (fun p => p.1 == S3_MARKER) = false)
    (hgz : wire.any (fun p => p.1 == GZIP_MARKER) = true) :
    decodeMessage store ⟨.gzipped s, some wire⟩
      = some (s, (parseMessageAttributes (some wire)).filter
          (fun p => p.1 != GZIP_MARKER && p.1 != S3_MARKER)) := by
  rw [decodeMessage]
  simp only [Option.getD_some, hs3, hgz, Bool.false_eq_true, if_false, if_pos rfl]
  rfl

theorem decodeMessage_pointer_plain (store : S3State) (bucket k : String) (n : Nat)
    (s : String) (wire : List (String × MessageAttributeValue))
    (hs3 : wire.any (fun p => p.1 == S3_MARKER) = true)
    (hgz : wire.any (fun p => p.1 == GZIP_MARKER) = false)
    (hlook : s3Lookup store k = some (.plain s)) :
    decodeMessage store ⟨.s3Pointer ⟨bucket, k, n⟩, some wire⟩
      = some (s, (parseMessageAttributes (some wire)).filter
          (fun p => p.1 != GZIP_MARKER && p.1 != S3_MARKER)) := by
  rw [decodeMessage]
  dsimp only [Option.getD]
  rw [if_pos hs3]
  rw [hlook]
  dsimp only
  rw [if_neg (by rw [hgz]; exact Bool.false_ne_true)]

theorem decodeMessage_pointer_gzipped (store : S3State) (bucket k : String) (n : Nat)
    (s : String) (wire : List (String × MessageAttributeValue))
    (hs3 : wire.any (fun p => p.1 == S3_MARKER) = true)
    (hgz : wire.any (fun p => p.1 == GZIP_MARKER) = true)
    (hlook : s3Lookup store k = some (.gzipped s)) :
    decodeMessage store ⟨.s3Pointer ⟨bucket, k, n⟩, some wire⟩
      = some (s, (parseMessageAttributes (some wire)).filter
          (fun p => p.1 != GZIP_MARKER && p.1 != S3_MARKER)) := by
  rw [decodeMessage]
  dsimp only [Option.getD]
  rw [if_pos hs3]
  rw [hlook]
  dsimp only
  rw [if_pos hgz]
  rfl

set_option maxHeartbeats 2000000 in
/-- C1 amended: for a string body and an attribute map whose values are all
truthy (nonzero numbers, nonempty strings, or binary values) and whose names
avoid the two reserved FIFO keys, every successful encode followed by a
successful decode — across every combination of the compression and
blob-offload options — returns exactly the original body and attribute
map. -/
theorem C1_roundtrip_amended (opts : SquissOpts) (env : QueueEnv) (st : SquissState)
    (body : String) (delay : Option Int) (attrs : List (String × AttrVal))
    (h_truthy : ∀ p ∈ attrs, p.2.truthy = true)
    (h_fifo : ∀ p ∈ attrs, p.1 ≠ "FIFO_MessageGroupId" ∧ p.1 ≠ "FIFO_MessageDeduplicationId")
    (params : ISendMessageRequest) (st' : SquissState) (calls : List NetworkCall)
    (h_ok : perpareMessageRequest opts env st body delay (some attrs) = .ok (params, st', calls))
    (out : String × List (String × AttrVal))
    (h_dec : decodeMessage st'.s3 ⟨params.MessageBody, params.MessageAttributes⟩ = some out) :
    out = (body, attrs) := by
  have hg : (attrGet attrs GZIP_MARKER).truthy = false := by
    by_contra hg'
    rw [Bool.not_eq_false] at hg'
    have hbe : perpareBase body delay (some attrs) = .error (.reservedAttribute GZIP_MARKER) := by
      rw [perpareBase]
      rw [if_pos (show (match some attrs with
        | some a => (attrGet a GZIP_MARKER).truthy | none => false) = true from hg')]
    rw [perpareMessageRequest, hbe] at h_ok
    exact absurd h_ok (by simp)
  have hs : (attrGet attrs S3_MARKER).truthy = false := by
    by_contra hs'
    rw [Bool.not_eq_false] at hs'
    have hbe : perpareBase body delay (some attrs) = .error (.reservedAttribute S3_MARKER) := by
      rw [perpareBase]
      rw [if_neg (show ¬(match some attrs with
        | some a => (attrGet a GZIP_MARKER).truthy | none => false) = true from by simp [hg])]
      rw [if_pos (show (match some attrs with
        | some a => (attrGet a S3_MARKER).truthy | none => false) = true from hs')]
    rw [perpareMessageRequest, hbe] at h_ok
    exact absurd h_ok (by simp)
  have hfg : (attrGet attrs "FIFO_MessageGroupId").truthy = false := by
    rw [attrGet_eq_jsUndefined attrs _ (fun p hp => (h_fifo p hp).1)]
    rfl
  have hfd : (attrGet attrs "FIFO_MessageDeduplicationId").truthy = false := by
    rw [attrGet_eq_jsUndefined attrs _ (fun p hp => (h_fifo p hp).2)]
    rfl
  have hkeysG : ∀ p ∈ attrs, p.1 ≠ GZIP_MARKER :=
    not_key_of_attrGet_falsy attrs GZIP_MARKER hg h_truthy
  have hkeysS : ∀ p ∈ attrs, p.1 ≠ S3_MARKER :=
    not_key_of_attrGet_falsy attrs S3_MARKER hs h_truthy
  have hWg : ∀ q ∈ createMessageAttributes attrs, q.1 ≠ GZIP_MARKER :=
    keys_ne_of_create attrs _ hkeysG
  have hWs : ∀ q ∈ createMessageAttributes attrs, q.1 ≠ S3_MARKER :=
    keys_ne_of_create attrs _ hkeysS
  have hanyWg : (createMessageAttributes attrs).any (fun p => p.1 == GZIP_MARKER) = false :=
    anyKey_eq_false _ _ hWg
  have hanyWs : (createMessageAttributes attrs).any (fun p => p.1 == S3_MARKER) = false :=
    anyKey_eq_false _ _ hWs
  have hWsG : ∀ v : MessageAttributeValue, ∀ q ∈ createMessageAttributes attrs
      ++ [(S3_MARKER, v)], q.1 ≠ GZIP_MARKER := by
    intro v q hq
    rcases List.mem_append.mp hq with h | h
    · exact hWg q h
    · rw [List.mem_singleton] at h
      rw [h]
      show S3_MARKER ≠ GZIP_MARKER
      decide
  have hWgS : ∀ v : MessageAttributeValue, ∀ q ∈ createMessageAttributes attrs
      ++ [(GZIP_MARKER, v)], q.1 ≠ S3_MARKER := by
    intro v q hq
    rcases List.mem_append.mp hq with h | h
    · exact hWs q h
    · rw [List.mem_singleton] at h
      rw [h]
      show GZIP_MARKER ≠ S3_MARKER
      decide
  have hanyS1 : ∀ v : MessageAttributeValue,
      (createMessageAttributes attrs ++ [(S3_MARKER, v)]).any
        (fun p => p.1 == S3_MARKER) = true := by
    intro v
    simp [List.any_append]
  have hanyG1 : ∀ v : MessageAttributeValue,
      (createMessageAttributes attrs ++ [(S3_MARKER, v)]).any
        (fun p => p.1 == GZIP_MARKER) = false :=
    fun v => anyKey_eq_false _ _ (hWsG v)
  have hanyS2 : ∀ v w : MessageAttributeValue,
      ((createMessageAttributes attrs ++ [(GZIP_MARKER, v)]) ++ [(S3_MARKER, w)]).any
        (fun p => p.1 == S3_MARKER) = true := by
    intro v w
    simp [List.any_append]
  have hanyG2 : ∀ v w : MessageAttributeValue,
      ((createMessageAttributes attrs ++ [(GZIP_MARKER, v)]) ++ [(S3_MARKER, w)]).any
        (fun p => p.1 == GZIP_MARKER) = true := by
    intro v w
    simp [List.any_append]
  have hanyGz1 : ∀ v : MessageAttributeValue,
      (createMessageAttributes attrs ++ [(GZIP_MARKER, v)]).any
        (fun p => p.1 == GZIP_MARKER) = true := by
    intro v
    simp [List.any_append]
  have hanySz1 : ∀ v : MessageAttributeValue,
      (createMessageAttributes attrs ++ [(GZIP_MARKER, v)]).any
        (fun p => p.1 == S3_MARKER) = false :=
    fun v => anyKey_eq_false _ _ (hWgS v)
  have hfilter0 : (parseMessageAttributes (some (createMessageAttributes attrs))).filter
      (fun p => p.1 != GZIP_MARKER && p.1 != S3_MARKER) = attrs := by
    have h := decode_filter_attrs attrs [] h_truthy hkeysG hkeysS (by simp)
    rwa [List.append_nil] at h
  have hfilterS : ∀ v : MessageAttributeValue,
      (parseMessageAttributes (some (createMessageAttributes attrs
        ++ [(S3_MARKER, v)]))).filter
        (fun p => p.1 != GZIP_MARKER && p.1 != S3_MARKER) = attrs := by
    intro v
    refine decode_filter_attrs attrs _ h_truthy hkeysG hkeysS ?_
    intro q hq
    rw [List.mem_singleton] at hq
    rw [hq]
    exact Or.inr rfl
  have hfilterG : ∀ v : MessageAttributeValue,
      (parseMessageAttributes (some (createMessageAttributes attrs
        ++ [(GZIP_MARKER, v)]))).filter
        (fun p => p.1 != GZIP_MARKER && p.1 != S3_MARKER) = attrs := by
    intro v
    refine decode_filter_attrs attrs _ h_truthy hkeysG hkeysS ?_
    intro q hq
    rw [List.mem_singleton] at hq
    rw [hq]
    exact Or.inl rfl
  have hfilterGS : ∀ v w : MessageAttributeValue,
      (parseMessageAttributes (some ((createMessageAttributes attrs
        ++ [(GZIP_MARKER, v)]) ++ [(S3_MARKER, w)]))).filter
        (fun p => p.1 != GZIP_MARKER && p.1 != S3_MARKER) = attrs := by
    intro v w
    rw [List.append_assoc]
    refine decode_filter_attrs attrs _ h_truthy hkeysG hkeysS ?_
    intro q hq
    rcases List.mem_append.mp hq with h | h
    · rw [List.mem_singleton] at h
      rw [h]
      exact Or.inl rfl
    · rw [List.mem_singleton] at h
      rw [h]
      exact Or.inr rfl
  have hbase := perpareBase_ok body delay attrs hg hs hfg hfd
  rw [perpareMessageRequest, hbase] at h_ok
  simp only [Except.ok.injEq] at h_ok
  by_cases hgzip : opts.gzip = true
  · by_cases hthr : (opts.minGzipSize != 0) = true
        ∧ getMessageSize (basePreparedRequest body delay attrs) < opts.minGzipSize
    · -- compression enabled but vetoed by the size threshold: body stays plain
      rw [applyGzip_skip opts _ body hgzip hthr] at h_ok
      dsimp only at h_ok
      by_cases hs3f : opts.s3Fallback = true
      · by_cases hl : (isLargeMessage env st (basePreparedRequest body delay attrs)
            opts.minS3Size).1 = true
        · rw [applyS3_large opts env st (basePreparedRequest body delay attrs)
            (MessageBody.plain body) (basePreparedRequest body delay attrs) rfl hs3f hl] at h_ok
          simp only [Prod.mk.injEq] at h_ok
          obtain ⟨hA, hB, hC⟩ := h_ok
          subst hA
          subst hB
          subst hC
          dsimp only [basePreparedRequest, Option.getD] at h_dec
          rw [jsSet_not_mem _ _ _ hWs] at h_dec
          rw [decodeMessage_pointer_plain _ _ _ _ body _ (hanyS1 _) (hanyG1 _)
            (s3Lookup_head _ _ _)] at h_dec
          rw [hfilterS] at h_dec
          exact (Option.some.inj h_dec).symm
        · rw [Bool.not_eq_true] at hl
          rw [applyS3_small opts env st (basePreparedRequest body delay attrs)
            (MessageBody.plain body) (basePreparedRequest body delay attrs) rfl hs3f hl] at h_ok
          simp only [Prod.mk.injEq] at h_ok
          obtain ⟨hA, hB, hC⟩ := h_ok
          subst hA
          subst hB
          subst hC
          dsimp only [basePreparedRequest, Option.getD] at h_dec
          rw [decodeMessage_plain _ body _ hanyWs hanyWg] at h_dec
          rw [hfilter0] at h_dec
          exact (Option.some.inj h_dec).symm
      · rw [Bool.not_eq_true] at hs3f
        rw [applyS3_off opts env st _ _ hs3f] at h_ok
        simp only [Prod.mk.injEq] at h_ok
        obtain ⟨hA, hB, hC⟩ := h_ok
        subst hA
        subst hB
        subst hC
        dsimp only [basePreparedRequest, Option.getD] at h_dec
        rw [decodeMessage_plain _ body _ hanyWs hanyWg] at h_dec
        rw [hfilter0] at h_dec
        exact (Option.some.inj h_dec).symm
    · -- compression applied: the gzip marker is appended and the body compressed
      rw [applyGzip_on opts _ body hgzip hthr] at h_ok
      dsimp only at h_ok
      have hgz_req : ({ basePreparedRequest body delay attrs with
          MessageAttributes := some (jsSet
            ((basePreparedRequest body delay attrs).MessageAttributes.getD []) GZIP_MARKER
            { DataType := NUMBER_TYPE, StringValue := some "1" }) } : ISendMessageRequest)
          = gzipMarkedRequest (MessageBody.plain body) delay attrs := by
        dsimp only [basePreparedRequest, gzipMarkedRequest, gzipMarkerValue, Option.getD]
        rw [jsSet_not_mem _ _ _ hWg]
      rw [hgz_req] at h_ok
      by_cases hs3f : opts.s3Fallback = true
      · by_cases hl : (isLargeMessage env st
            (gzipMarkedRequest (MessageBody.gzipped body) delay attrs)
            opts.minS3Size).1 = true
        · rw [applyS3_large opts env st (gzipMarkedRequest (MessageBody.plain body) delay attrs)
            (MessageBody.gzipped body) (gzipMarkedRequest (MessageBody.gzipped body) delay attrs)
            rfl hs3f hl] at h_ok
          simp only [Prod.mk.injEq] at h_ok
          obtain ⟨hA, hB, hC⟩ := h_ok
          subst hA
          subst hB
          subst hC
          dsimp only [gzipMarkedRequest, Option.getD] at h_dec
          rw [jsSet_not_mem _ _ _ (hWgS _)] at h_dec
          rw [decodeMessage_pointer_gzipped _ _ _ _ body _ (hanyS2 _ _) (hanyG2 _ _)
            (s3Lookup_head _ _ _)] at h_dec
          rw [hfilterGS] at h_dec
          exact (Option.some.inj h_dec).symm
        · rw [Bool.not_eq_true] at hl
          rw [applyS3_small opts env st (gzipMarkedRequest (MessageBody.plain body) delay attrs)
            (MessageBody.gzipped body) (gzipMarkedRequest (MessageBody.gzipped body) delay attrs)
            rfl hs3f hl] at h_ok
          simp only [Prod.mk.injEq] at h_ok
          obtain ⟨hA, hB, hC⟩ := h_ok
          subst hA
          subst hB
          subst hC
          dsimp only [gzipMarkedRequest, Option.getD] at h_dec
          rw [decodeMessage_gzipped _ body _ (hanySz1 _) (hanyGz1 _)] at h_dec
          rw [hfilterG] at h_dec
          exact (Option.some.inj h_dec).symm
      · rw [Bool.not_eq_true] at hs3f
        rw [applyS3_off opts env st _ _ hs3f] at h_ok
        simp only [Prod.mk.injEq] at h_ok
        obtain ⟨hA, hB, hC⟩ := h_ok
        subst hA
        subst hB
        subst hC
        dsimp only [gzipMarkedRequest, Option.getD] at h_dec
        rw [decodeMessage_gzipped _ body _ (hanySz1 _) (hanyGz1 _)] at h_dec
        rw [hfilterG] at h_dec
        exact (Option.some.inj h_dec).symm
  · rw [Bool.not_eq_true] at hgzip
    rw [applyGzip_off opts _ body hgzip] at h_ok
    dsimp only at h_ok
    by_cases hs3f : opts.s3Fallback = true
    · by_cases hl : (isLargeMessage env st (basePreparedRequest body delay attrs)
          opts.minS3Size).1 = true
      · rw [applyS3_large opts env st (basePreparedRequest body delay attrs)
          (MessageBody.plain body) (basePreparedRequest body delay attrs) rfl hs3f hl] at h_ok
        simp only [Prod.mk.injEq] at h_ok
        obtain ⟨hA, hB, hC⟩ := h_ok
        subst hA
        subst hB
        subst hC
        dsimp only [basePreparedRequest, Option.getD] at h_dec
        rw [jsSet_not_mem _ _ _ hWs] at h_dec
        rw [decodeMessage_pointer_plain _ _ _ _ body _ (hanyS1 _) (hanyG1 _)
          (s3Lookup_head _ _ _)] at h_dec
        rw [hfilterS] at h_dec
        exact (Option.some.inj h_dec).symm
      · rw [Bool.not_eq_true] at hl
        rw [applyS3_small opts env st (basePreparedRequest body delay attrs)
          (MessageBody.plain body) (basePreparedRequest body delay attrs) rfl hs3f hl] at h_ok
        simp only [Prod.mk.injEq] at h_ok
        obtain ⟨hA, hB, hC⟩ := h_ok
        subst hA
        subst hB
        subst hC
        dsimp only [basePreparedRequest, Option.getD] at h_dec
        rw [decodeMessage_plain _ body _ hanyWs hanyWg] at h_dec
        rw [hfilter0] at h_dec
        exact (Option.some.inj h_dec).symm
    · rw [Bool.not_eq_true] at hs3f
      rw [applyS3_off opts env st _ _ hs3f] at h_ok
      simp only [Prod.mk.injEq] at h_ok
      obtain ⟨hA, hB, hC⟩ := h_ok
      subst hA
      subst hB
      subst hC
      dsimp only [basePreparedRequest, Option.getD] at h_dec
      rw [decodeMessage_plain _ body _ hanyWs hanyWg] at h_dec
      rw [hfilter0] at h_dec
      exact (Option.some.inj h_dec).symm

/-- C1 (claim as stated is false): an attribute holding the empty string —
a string value of the logical payload — encodes successfully, but decoding
the wire record parses it back as absent (`undefined`), not as the original
empty string. -/
theorem C1_claim_counterexample :
    (perpareMessageRequest {} {} {} "hello" none (some [("a", AttrVal.str "")])).map
        (fun r => decodeMessage r.2.1.s3 ⟨r.1.MessageBody, r.1.MessageAttributes⟩)
      = .ok (some ("hello", [("a", AttrVal.jsUndefined)])) ∧
    [("a", AttrVal.jsUndefined)] ≠ [("a", AttrVal.str "")] := by
  constructor
  · rfl
  · decide

/-- C1 witness: a round trip through the compression path at a concrete
payload, with the amended theorem closing the loop. -/
theorem C1_roundtrip_amended_witness :
    decodeMessage ({} : SquissState).s3
        ⟨MessageBody.gzipped "hello",
         some [("k", { DataType := STRING_TYPE, StringValue := some "v" }),
               (GZIP_MARKER, { DataType := NUMBER_TYPE, StringValue := some "1" })]⟩
      = some ("hello", [("k", AttrVal.str "v")]) ∧
    ("hello", [("k", AttrVal.str "v")]) = ("hello", [("k", AttrVal.str "v")]) := by
  constructor
  · rfl
  · exact C1_roundtrip_amended { gzip := true } {} {} "hello" none [("k", AttrVal.str "v")]
      (by decide) (by decide) _ {} [] rfl _ rfl

end Squiss
